import Mathlib

/-!
Verification of the shipment-monitoring engine of the four_bots_wb
repository: a shallow embedding of src/shipment/utils.py,
src/shipment/api.py and src/shipment/monitor.py, together with theorems
settling the spec claims about them.

Python dicts are embedded as association lists (insertion-ordered, like
Python dicts), Python sets as lists used only through membership, machine
time as integers (seconds), and every awaited network call as an oracle
argument giving that call's outcome.
-/

namespace FourBots

/-- A Python exception that can escape the helpers modelled here.
In `datetime.fromisoformat(value.replace(...))` the attribute access
`.replace` raises `AttributeError` when the field value is not a string,
and the surrounding `except (ValueError, TypeError)` does not catch it. -/
inductive PyErr where
  | attributeError
  deriving DecidableEq, Repr

/-- The value found under a timestamp key of a payload (`created_at`,
`closed_at`).  A string value either parses via `datetime.fromisoformat`
to a time, modelled `str (some t)`, or raises a caught `ValueError`,
modelled `str none`; a truthy non-string value (for example a JSON number)
makes `.replace` raise an uncaught `AttributeError`, modelled `nonStr`.
An absent key, a `None` value or an empty (falsy) string is modelled as
`Option.none` at the field itself. -/
inductive TsValue where
  | str (parsed : Option Int)
  | nonStr
  deriving DecidableEq, Repr

/-- One entry of a shipment's `transfers` list; a missing key is `none`
(the source reads every count with `.get(key, 0)`). -/
structure Transfer where
  box_count : Option Nat
  item_count : Option Nat
  box_scanned : Option Nat
  item_scanned : Option Nat
  remain_count : Option Nat
  deriving DecidableEq, Repr

/-- One entry of a shipment's `tares` list. -/
structure Tare where
  is_scanned : Option Bool
  item_count : Option Nat
  deriving DecidableEq, Repr

/-- A raw shipment payload as read by the monitor. -/
structure Shipment where
  id : Option Nat
  state : Option String
  created_at : Option TsValue
  closed_at : Option TsValue
  car_number : Option String
  responsible : Option String
  transfers : List Transfer
  tares : List Tare
  deriving DecidableEq, Repr

/-- Python truthiness of an optional integer: `None` and `0` are falsy. -/
def optTruthy : Option Nat → Bool
  | some n => n != 0
  | none => false

/-- Lookup in an association list standing for a Python dict. -/
def alistLookup [BEq κ] (store : List (κ × α)) (key : κ) : Option α :=
  (store.find? (fun entry => entry.1 == key)).map (fun entry => entry.2)

/-- Assignment `store[key] = val` on a Python dict: replaces the value in
place when the key exists, appends the key otherwise (Python dicts keep
insertion order and never hold a key twice). -/
def alistInsert [BEq κ] : List (κ × α) → κ → α → List (κ × α)
  | [], key, val => [(key, val)]
  | e :: rest, key, val =>
    if e.1 == key then (key, val) :: rest
    else e :: alistInsert rest key val

/-- Deletion `del store[key]` on a Python dict. -/
def alistErase [BEq κ] (store : List (κ × α)) (key : κ) : List (κ × α) :=
  store.filter (fun entry => entry.1 != key)

/-- `set.add` on a Python set modelled as a list used through membership. -/
def setAdd (s : List Nat) (x : Nat) : List Nat :=
  if x ∈ s then s else s ++ [x]

/-- `is_new_shipment` of src/shipment/utils.py: with no monitoring start
time every shipment is new; otherwise a shipment is new iff its creation
timestamp parses and is later than the start time (a missing or falsy
timestamp, or a caught parse error, means not new; a truthy non-string
value raises). -/
def is_new_shipment (shipment : Shipment) (monitoring_start_time : Option Int) :
    Except PyErr Bool :=
  match monitoring_start_time with
  | none => Except.ok true
  | some start =>
    match shipment.created_at with
    | none => Except.ok false
    | some (TsValue.str none) => Except.ok false
    | some (TsValue.str (some created)) => Except.ok (decide (start < created))
    | some TsValue.nonStr => Except.error PyErr.attributeError

/-- The dictionary returned by `calculate_max_stats`. -/
structure MaxStats where
  max_boxes : Nat
  max_items : Nat
  deriving DecidableEq, Repr

/-- `calculate_max_stats` of src/shipment/utils.py: accumulates transfer
box and item counts, then adds each tare as exactly one box carrying its
item count.  A missing count is read as 0 by `.get(key, 0)`. -/
def calculate_max_stats (shipment : Shipment) : MaxStats :=
  let afterTransfers := shipment.transfers.foldl
    (fun acc transfer =>
      { max_boxes := acc.max_boxes + transfer.box_count.getD 0,
        max_items := acc.max_items + transfer.item_count.getD 0 })
    { max_boxes := 0, max_items := 0 }
  shipment.tares.foldl
    (fun acc tare =>
      { max_boxes := acc.max_boxes + 1,
        max_items := acc.max_items + tare.item_count.getD 0 })
    afterTransfers

/-- Round half to even, the tie-breaking Python's `round` uses, written
on the numerator and (positive) denominator so that it evaluates: `f` is
the floor of `q` and `r` the nonnegative remainder, and the fractional
part `r / den` is compared with one half by cross-multiplication. -/
def roundHalfEven (q : ℚ) : ℤ :=
  let f := Int.fdiv q.num (q.den : ℤ)
  let r := q.num - f * (q.den : ℤ)
  if 2 * r < (q.den : ℤ) then f
  else if (q.den : ℤ) < 2 * r then f + 1
  else if f % 2 = 0 then f else f + 1

/-- Python's `round(q, 1)`, modelled over the rationals. -/
def pyRound1 (q : ℚ) : ℚ := (roundHalfEven (q * 10) : ℚ) / 10

/-- Parsing of one optional timestamp field as the source performs it:
a caught `ValueError` leaves the value `None`, a truthy non-string value
raises `AttributeError` out of the function. -/
def parseTs : Option TsValue → Except PyErr (Option Int)
  | none => Except.ok none
  | some (TsValue.str parsed) => Except.ok parsed
  | some TsValue.nonStr => Except.error PyErr.attributeError

/-- The dictionary returned by `get_shipment_grouped_info`. -/
structure GroupedInfo where
  shipment_id : Option Nat
  state : Option String
  vehicle : String
  responsible : String
  created_at : Option Int
  closed_at : Option Int
  duration : Option Int
  max_boxes : Nat
  max_items : Nat
  scanned_boxes : Nat
  scanned_items : Nat
  remaining_items : Nat
  box_percentage : ℚ
  item_percentage : ℚ
  deriving DecidableEq, Repr

/-- `get_shipment_grouped_info` of src/shipment/utils.py: accumulates
scanned and remaining counts over transfers, adds scanned tares (one box
each, plus their item count), computes the two percentages guarding
against a zero maximum, then parses the two timestamps (this is the one
place an exception can escape) and derives the duration. -/
def get_shipment_grouped_info (shipment : Shipment) (max_stats : MaxStats) :
    Except PyErr GroupedInfo :=
  let transferCounts := shipment.transfers.foldl
    (fun (acc : Nat × Nat × Nat) transfer =>
      (acc.1 + transfer.box_scanned.getD 0,
       acc.2.1 + transfer.item_scanned.getD 0,
       acc.2.2 + transfer.remain_count.getD 0))
    (0, 0, 0)
  let tareCounts := shipment.tares.foldl
    (fun (acc : Nat × Nat) tare =>
      if tare.is_scanned.getD false then
        (acc.1 + 1, acc.2 + tare.item_count.getD 0)
      else acc)
    (transferCounts.1, transferCounts.2.1)
  let scanned_boxes := tareCounts.1
  let scanned_items := tareCounts.2
  let remaining_items := transferCounts.2.2
  let box_percentage : ℚ :=
    if 0 < max_stats.max_boxes then
      pyRound1 ((scanned_boxes : ℚ) / (max_stats.max_boxes : ℚ) * 100)
    else 0
  let item_percentage : ℚ :=
    if 0 < max_stats.max_items then
      pyRound1 ((scanned_items : ℚ) / (max_stats.max_items : ℚ) * 100)
    else 0
  match parseTs shipment.created_at with
  | Except.error e => Except.error e
  | Except.ok created_at =>
    match parseTs shipment.closed_at with
    | Except.error e => Except.error e
    | Except.ok closed_at =>
      let duration : Option Int :=
        match created_at, closed_at with
        | some c, some cl => some (cl - c)
        | _, _ => none
      Except.ok
        { shipment_id := shipment.id
          state := shipment.state
          vehicle := shipment.car_number.getD "N/A"
          responsible := shipment.responsible.getD "N/A"
          created_at := created_at
          closed_at := closed_at
          duration := duration
          max_boxes := max_stats.max_boxes
          max_items := max_stats.max_items
          scanned_boxes := scanned_boxes
          scanned_items := scanned_items
          remaining_items := remaining_items
          box_percentage := box_percentage
          item_percentage := item_percentage }

/-- `has_progress_changed` of src/shipment/utils.py: true without a prior
snapshot, otherwise true iff the state, the scanned box count or the
scanned item count differs from the stored snapshot.  A pure function of
its arguments; the store is not modified. -/
def has_progress_changed (shipment_id : Nat) (current_progress : GroupedInfo)
    (last_progress : List (Nat × GroupedInfo)) : Bool :=
  match alistLookup last_progress shipment_id with
  | none => true
  | some prev =>
    if current_progress.state != prev.state then true
    else if current_progress.scanned_boxes != prev.scanned_boxes then true
    else if current_progress.scanned_items != prev.scanned_items then true
    else false

/-- `update_last_progress` of src/shipment/utils.py: the explicit snapshot
commit `last_progress[shipment_id] = progress`. -/
def update_last_progress (shipment_id : Nat) (progress : GroupedInfo)
    (last_progress : List (Nat × GroupedInfo)) : List (Nat × GroupedInfo) :=
  alistInsert last_progress shipment_id progress

/-- Outcome of one HTTP GET attempt as seen by `get_with_retry`: a 200
with a decoded body, a non-200 status code, or a raised
`aiohttp.ClientError` / `asyncio.TimeoutError`. -/
inductive HttpOutcome (α : Type) where
  | ok (data : α)
  | status (code : Nat)
  | transportError
  deriving DecidableEq, Repr

/-- The `while attempt < max_attempts` loop of `get_with_retry`
(src/shipment/api.py), recursing on the remaining attempts; `resp n` is
the outcome of the attempt numbered `n`.  Returns the decoded body
(`none` is the failure sentinel), the number of attempts performed and
the list of backoff sleeps (`2 ** attempt` seconds each). -/
def getWithRetryAux (resp : Nat → HttpOutcome α) (attempt : Nat) :
    Nat → Option α × Nat × List Nat
  | 0 => (none, attempt, [])
  | remaining + 1 =>
    match resp attempt with
    | HttpOutcome.ok data => (some data, attempt + 1, [])
    | HttpOutcome.status code =>
      if code == 401 || code == 403 then (none, attempt + 1, [])
      else
        let rest := getWithRetryAux resp (attempt + 1) remaining
        (rest.1, rest.2.1, 2 ^ attempt :: rest.2.2)
    | HttpOutcome.transportError =>
      let rest := getWithRetryAux resp (attempt + 1) remaining
      (rest.1, rest.2.1, 2 ^ attempt :: rest.2.2)

/-- `get_with_retry` of src/shipment/api.py; every caller in the source
leaves `max_attempts` at its default of 5. -/
def get_with_retry (resp : Nat → HttpOutcome α) (max_attempts : Nat) :
    Option α × Nat × List Nat :=
  getWithRetryAux resp 0 max_attempts

/-- The `shipment` sub-dictionary of one account's configuration, as far
as `authenticate` touches it. -/
structure ShipmentConfig where
  token : Option String
  bearer_token : Option String
  deriving DecidableEq, Repr

/-- `authenticate` of src/shipment/api.py: looks the account up, requires
a configured token (`none` also stands for a falsy empty token), stores
the token as `bearer_token` before probing the status endpoint, then
reports success only for a 200 probe.  `probe` is the status of the GET
on the probe endpoint, `none` modelling a raised request error.  No login
flow exists: the stored credential is the configured token verbatim. -/
def authenticate (accounts : List (String × ShipmentConfig))
    (account_id : String) (probe : Option Nat) :
    (Bool × String) × List (String × ShipmentConfig) :=
  match alistLookup accounts account_id with
  | none => ((false, "Account " ++ account_id ++ " not found"), accounts)
  | some account_data =>
    match account_data.token with
    | none => ((false, "No token configured"), accounts)
    | some token =>
      let accounts' := alistInsert accounts account_id
        { account_data with bearer_token := some token }
      match probe with
      | none => ((false, "Request error"), accounts')
      | some code =>
        if code == 200 then ((true, "Token verified successfully"), accounts')
        else ((false, "Authentication failed: " ++ toString code), accounts')

/-- An awaited side effect one loop iteration performed, visible to the
outside: a detail fetch, a channel notification (with its message type
and whether delivery succeeded), an in-place edit of the live message, or
a deletion of the original live message. -/
inductive Event where
  | fetchedDetails (shipment_id : Nat)
  | sent (shipment_id : Nat) (message_type : String) (delivered : Bool)
  | edited (shipment_id : Nat) (delivered : Bool)
  | deletedOriginal (shipment_id : Nat) (delivered : Bool)
  deriving DecidableEq, Repr

/-- The shipment an event concerns. -/
def Event.shipmentId : Event → Nat
  | fetchedDetails i => i
  | sent i _ _ => i
  | edited i _ => i
  | deletedOriginal i _ => i

/-- The mutable per-shipment maps under `account_data` of one session:
`processed_shipments` and `completed_shipments` (sets of shipment ids),
`message_ids` (shipment id to live-notification message id),
`last_progress` (shipment id to last committed snapshot),
`last_activity_time` (shipment id to last activity timestamp) and
`monitored_shipments` (shipment id to latest raw detail payload). -/
structure SessionState where
  processed_shipments : List Nat
  completed_shipments : List Nat
  message_ids : List (Nat × Nat)
  last_progress : List (Nat × GroupedInfo)
  last_activity_time : List (Nat × Int)
  monitored_shipments : List (Nat × Shipment)
  deriving DecidableEq, Repr

/-- The empty session state every account starts from. -/
def SessionState.initial : SessionState :=
  { processed_shipments := []
    completed_shipments := []
    message_ids := []
    last_progress := []
    last_activity_time := []
    monitored_shipments := [] }

/-- The terminal lifecycle states. -/
def terminalStates : List String := ["closed", "terminated", "canceled"]

/-- The check `shipment_details.get('state') in ['closed', 'terminated',
'canceled']`; a missing state is not terminal. -/
def isTerminalState : Option String → Bool
  | some s => terminalStates.contains s
  | none => false

/-- Outcomes of the awaited calls one discovery iteration makes:
`shipments` is what `get_shipments` returned (`none` for its `None`
failure sentinel), `details i` what `get_shipment_details` returns for
shipment `i`, `send i t` the message id `send_to_channel` yields for
shipment `i` and message type `t` (`none` on delivery failure), `now`
the wall clock and `monitoring_start_time` the session's recorded start. -/
structure DiscoveryEnv where
  shipments : Option (List Shipment)
  details : Nat → Option Shipment
  send : Nat → String → Option Nat
  now : Int
  monitoring_start_time : Option Int

/-- The body of `for shipment in shipments` in `check_new_shipments_loop`
(src/shipment/monitor.py lines 72-129) for one list entry: skips entries
with a falsy id, entries already in `processed_shipments` and entries not
new; otherwise fetches details, computes progress and either dispatches a
completed notification (marking the id processed and completed, delivery
outcome ignored) or dispatches a live notification and, only when a
truthy message id came back, records the handle, commits the snapshot,
records activity and starts monitoring.  The third component is the
exception, if one was raised: it aborts the remaining entries and is
caught by the loop-level `except`. -/
def processDiscovered (env : DiscoveryEnv) (st : SessionState)
    (shipment : Shipment) : SessionState × List Event × Option PyErr :=
  match shipment.id with
  | none => (st, [], none)
  | some shipment_id =>
    if shipment_id == 0 then (st, [], none)
    else if shipment_id ∈ st.processed_shipments then (st, [], none)
    else
      match is_new_shipment shipment env.monitoring_start_time with
      | Except.error e => (st, [], some e)
      | Except.ok false => (st, [], none)
      | Except.ok true =>
        match env.details shipment_id with
        | none => (st, [Event.fetchedDetails shipment_id], none)
        | some shipment_details =>
          match get_shipment_grouped_info shipment_details
              (calculate_max_stats shipment_details) with
          | Except.error e => (st, [Event.fetchedDetails shipment_id], some e)
          | Except.ok info =>
            if isTerminalState shipment_details.state then
              ({ st with
                  completed_shipments := setAdd st.completed_shipments shipment_id,
                  processed_shipments := setAdd st.processed_shipments shipment_id },
               [Event.fetchedDetails shipment_id,
                Event.sent shipment_id "completed"
                  (env.send shipment_id "completed").isSome],
               none)
            else
              if optTruthy (env.send shipment_id "live") then
                ({ st with
                    message_ids :=
                      alistInsert st.message_ids shipment_id
                        ((env.send shipment_id "live").getD 0),
                    last_progress :=
                      update_last_progress shipment_id info st.last_progress,
                    last_activity_time :=
                      alistInsert st.last_activity_time shipment_id env.now,
                    monitored_shipments :=
                      alistInsert st.monitored_shipments shipment_id shipment_details },
                 [Event.fetchedDetails shipment_id,
                  Event.sent shipment_id "live"
                    (env.send shipment_id "live").isSome],
                 none)
              else
                (st,
                 [Event.fetchedDetails shipment_id,
                  Event.sent shipment_id "live"
                    (env.send shipment_id "live").isSome],
                 none)

/-- Sequential processing of the fetched shipment list; a raised
exception aborts the remaining entries. -/
def runDiscoveryList (env : DiscoveryEnv) :
    List Shipment → SessionState → SessionState × List Event
  | [], st => (st, [])
  | shipment :: rest, st =>
    match processDiscovered env st shipment with
    | (st', evs, some _) => (st', evs)
    | (st', evs, none) =>
      let next := runDiscoveryList env rest st'
      (next.1, evs ++ next.2)

/-- One iteration of the `while True` body of `check_new_shipments_loop`
(the periodic re-authentication preamble, which only refreshes the bearer
token and is modelled by `authenticate`, aside): a falsy shipments list
makes the iteration sleep without processing; otherwise every entry is
processed in order until an exception aborts the rest. -/
def checkNewShipmentsIter (env : DiscoveryEnv) (st : SessionState) :
    SessionState × List Event :=
  match env.shipments with
  | none => (st, [])
  | some [] => (st, [])
  | some shipments => runDiscoveryList env shipments st

/-- Outcomes of the awaited calls one refresh iteration makes: `details`
and `send` as for discovery, `editOk i` whether the
`bot.edit_message_text` for shipment `i`'s live message succeeds,
`deleteOk i` whether the `bot.delete_message` succeeds, `now` the wall
clock and `inactivity_timeout` the configured `INACTIVITY_TIMEOUT`. -/
structure RefreshEnv where
  details : Nat → Option Shipment
  send : Nat → String → Option Nat
  editOk : Nat → Bool
  deleteOk : Nat → Bool
  now : Int
  inactivity_timeout : Int

/-- The body of `for shipment_id in monitored_shipments` in
`update_active_shipments_loop` (src/shipment/monitor.py lines 157-237):
skips ids in `completed_shipments`; evicts (removes from
`monitored_shipments` without fetching or notifying) ids whose last
activity is older than the timeout; otherwise re-fetches details, stores
them, recomputes progress and either completes the shipment (completed
notification with delivery outcome ignored, best-effort delete of the
live message, mark completed, remove from monitoring) or, when progress
changed and a truthy live-message handle exists, edits the live message
in place, committing the snapshot and refreshing activity only when the
edit succeeded. -/
def processMonitored (env : RefreshEnv) (st : SessionState)
    (shipment_id : Nat) : SessionState × List Event × Option PyErr :=
  if shipment_id ∈ st.completed_shipments then (st, [], none)
  else if (match alistLookup st.last_activity_time shipment_id with
           | some last_activity =>
             decide (env.inactivity_timeout < env.now - last_activity)
           | none => false) then
    ({ st with monitored_shipments :=
        alistErase st.monitored_shipments shipment_id },
     [], none)
  else
    match env.details shipment_id with
    | none => (st, [Event.fetchedDetails shipment_id], none)
    | some shipment_details =>
      match get_shipment_grouped_info shipment_details
          (calculate_max_stats shipment_details) with
      | Except.error e =>
        ({ st with monitored_shipments :=
            alistInsert st.monitored_shipments shipment_id shipment_details },
         [Event.fetchedDetails shipment_id], some e)
      | Except.ok info =>
        if isTerminalState shipment_details.state then
          ({ st with
              completed_shipments := setAdd st.completed_shipments shipment_id,
              monitored_shipments :=
                alistErase
                  (alistInsert st.monitored_shipments shipment_id shipment_details)
                  shipment_id },
           Event.fetchedDetails shipment_id ::
             Event.sent shipment_id "completed"
               (env.send shipment_id "completed").isSome ::
             (if optTruthy (alistLookup st.message_ids shipment_id) then
               [Event.deletedOriginal shipment_id (env.deleteOk shipment_id)]
             else []),
           none)
        else
          if has_progress_changed shipment_id info st.last_progress then
            if optTruthy (alistLookup st.message_ids shipment_id) then
              if env.editOk shipment_id then
                ({ st with
                    monitored_shipments :=
                      alistInsert st.monitored_shipments shipment_id
                        shipment_details,
                    last_progress :=
                      update_last_progress shipment_id info st.last_progress,
                    last_activity_time :=
                      alistInsert st.last_activity_time shipment_id env.now },
                 [Event.fetchedDetails shipment_id,
                  Event.edited shipment_id true],
                 none)
              else
                ({ st with
                    monitored_shipments :=
                      alistInsert st.monitored_shipments shipment_id
                        shipment_details },
                 [Event.fetchedDetails shipment_id,
                  Event.edited shipment_id false],
                 none)
            else
              ({ st with
                  monitored_shipments :=
                    alistInsert st.monitored_shipments shipment_id
                      shipment_details },
               [Event.fetchedDetails shipment_id], none)
          else
            ({ st with
                monitored_shipments :=
                  alistInsert st.monitored_shipments shipment_id
                    shipment_details },
             [Event.fetchedDetails shipment_id], none)

/-- Sequential processing of a snapshot of the monitored keys; a raised
exception aborts the remaining keys. -/
def runRefreshList (env : RefreshEnv) :
    List Nat → SessionState → SessionState × List Event
  | [], st => (st, [])
  | shipment_id :: rest, st =>
    match processMonitored env st shipment_id with
    | (st', evs, some _) => (st', evs)
    | (st', evs, none) =>
      let next := runRefreshList env rest st'
      (next.1, evs ++ next.2)

/-- One iteration of the `while True` body of
`update_active_shipments_loop`: iterates a snapshot of the monitored
keys taken at the start of the iteration. -/
def updateActiveShipmentsIter (env : RefreshEnv) (st : SessionState) :
    SessionState × List Event :=
  runRefreshList env (st.monitored_shipments.map (fun entry => entry.1)) st

/-- The static routing configuration `send_to_channel` reads:
`channel_id2 = none` models a falsy (unset or zero) secondary channel. -/
structure ChannelConfig where
  channel_id : Int
  channel_id2 : Option Int
  live_topic_id : Int
  completed_topic_id : Int

/-- `send_to_channel` of src/shipment/monitor.py: with a secondary
channel configured, live messages go to the primary and completed
messages to the secondary channel, both without a topic; otherwise the
phase's topic id is used, the sentinel topic 1 meaning no topic.
`deliver chat topic` is the outcome of `bot.send_message` (the message
id, or `none` when sending raised); the surrounding `except` turns a
raised send error into the `None` failure sentinel. -/
def send_to_channel (cfg : ChannelConfig)
    (deliver : Int → Option Int → Option Nat) (message_type : String) :
    Option Nat :=
  match cfg.channel_id2 with
  | some channel2 =>
    if message_type == "live" then deliver cfg.channel_id none
    else deliver channel2 none
  | none =>
    let topic_id :=
      if message_type == "live" then cfg.live_topic_id
      else cfg.completed_topic_id
    if topic_id == 1 then deliver cfg.channel_id none
    else deliver cfg.channel_id (some topic_id)

/-! ### Association-list and set lemmas -/

theorem alistLookup_nil [BEq κ] (k : κ) : alistLookup ([] : List (κ × α)) k = none := rfl

theorem alistLookup_cons [BEq κ] (e : κ × α) (store : List (κ × α)) (k : κ) :
    alistLookup (e :: store) k =
      if e.1 == k then some e.2 else alistLookup store k := by
  by_cases h : e.1 == k <;> simp [alistLookup, List.find?_cons, h]

theorem alistLookup_alistInsert_self [BEq κ] [LawfulBEq κ]
    (store : List (κ × α)) (k : κ) (v : α) :
    alistLookup (alistInsert store k v) k = some v := by
  induction store with
  | nil => simp [alistInsert, alistLookup]
  | cons e tl ih =>
    unfold alistInsert
    by_cases he : e.1 == k
    · simp only [if_pos he]
      rw [alistLookup_cons]
      simp
    · simp only [if_neg he]
      rw [alistLookup_cons]
      simp only [he, if_false]
      exact ih

theorem alistLookup_alistInsert_ne [BEq κ] [LawfulBEq κ]
    (store : List (κ × α)) (k k' : κ) (v : α) (hne : k' ≠ k) :
    alistLookup (alistInsert store k v) k' = alistLookup store k' := by
  have h1 : (k == k') = false := by
    simp only [beq_eq_false_iff_ne]
    exact fun h => hne h.symm
  induction store with
  | nil =>
    simp only [alistInsert, alistLookup_nil]
    rw [alistLookup_cons]
    simp [h1, alistLookup]
  | cons e tl ih =>
    unfold alistInsert
    by_cases he : e.1 == k
    · have he' : e.1 = k := by simpa using he
      simp only [if_pos he]
      rw [alistLookup_cons, alistLookup_cons]
      simp [h1, he']
    · simp only [if_neg he]
      rw [alistLookup_cons, alistLookup_cons]
      split
      · rfl
      · exact ih

theorem alistLookup_alistErase_self [BEq κ] [LawfulBEq κ]
    (store : List (κ × α)) (k : κ) :
    alistLookup (alistErase store k) k = none := by
  induction store with
  | nil => rfl
  | cons e tl ih =>
    unfold alistErase at ih ⊢
    by_cases he : e.1 == k
    · simp only [List.filter_cons, bne, he, Bool.not_true, if_false]
      exact ih
    · simp only [List.filter_cons, bne, he, Bool.not_false, if_true]
      rw [alistLookup_cons]
      simp only [he, if_false]
      exact ih

theorem alistLookup_alistErase_ne [BEq κ] [LawfulBEq κ]
    (store : List (κ × α)) (k k' : κ) (hne : k' ≠ k) :
    alistLookup (alistErase store k) k' = alistLookup store k' := by
  induction store with
  | nil => rfl
  | cons e tl ih =>
    unfold alistErase at ih ⊢
    by_cases he : e.1 == k
    · have he' : e.1 = k := by simpa using he
      have h2 : (e.1 == k') = false := by
        simp only [beq_eq_false_iff_ne, he']
        exact fun h => hne h.symm
      simp only [List.filter_cons, bne, he, Bool.not_true, if_false]
      rw [alistLookup_cons]
      simp only [h2, if_false]
      exact ih
    · simp only [List.filter_cons, bne, he, Bool.not_false, if_true]
      rw [alistLookup_cons, alistLookup_cons]
      split
      · rfl
      · exact ih

theorem mem_setAdd_self (s : List Nat) (x : Nat) : x ∈ setAdd s x := by
  unfold setAdd
  split
  · assumption
  · simp

theorem mem_setAdd_of_mem (s : List Nat) (x y : Nat) (h : y ∈ s) :
    y ∈ setAdd s x := by
  unfold setAdd
  split
  · exact h
  · simp [h]

theorem mem_setAdd_iff (s : List Nat) (x y : Nat) :
    y ∈ setAdd s x ↔ y = x ∨ y ∈ s := by
  unfold setAdd
  split
  case isTrue hx =>
    constructor
    · exact fun h => Or.inr h
    · rintro (rfl | h)
      · exact hx
      · exact h
  case isFalse hx => simp [or_comm]

/-! ### Retry policy (claim C3) -/

theorem rangePow_step (a k : Nat) :
    (List.range (k + 1)).map (fun i => 2 ^ (a + i))
      = 2 ^ a :: (List.range k).map (fun i => 2 ^ (a + 1 + i)) := by
  rw [List.range_succ_eq_map, List.map_cons, List.map_map]
  have h1 : 2 ^ (a + 0) = 2 ^ a := by rw [Nat.add_zero]
  have h2 : (List.range k).map ((fun i => 2 ^ (a + i)) ∘ Nat.succ)
      = (List.range k).map (fun i => 2 ^ (a + 1 + i)) := by
    refine List.map_congr_left ?_
    intro i _
    simp only [Function.comp_apply]
    congr 1
    omega
  rw [h1, h2]

theorem getWithRetryAux_delays (resp : Nat → HttpOutcome α) :
    ∀ m a, ∃ k, (getWithRetryAux resp a m).2.2
      = (List.range k).map (fun i => 2 ^ (a + i)) := by
  intro m
  induction m with
  | zero => exact fun a => ⟨0, rfl⟩
  | succ n ih =>
    intro a
    obtain ⟨k, hk⟩ := ih (a + 1)
    have step := rangePow_step a k
    unfold getWithRetryAux
    cases hr : resp a with
    | ok data => exact ⟨0, rfl⟩
    | status code =>
      by_cases hc : (code == 401 || code == 403) = true
      · exact ⟨0, by simp [hc]⟩
      · refine ⟨k + 1, ?_⟩
        simp only [Bool.not_eq_true] at hc
        simp [hc, hk, step]
    | transportError => exact ⟨k + 1, by simp [hk, step]⟩

theorem getWithRetryAux_const_status (resp : Nat → HttpOutcome α) (code : Nat)
    (h : ∀ n, resp n = HttpOutcome.status code)
    (hc : (code == 401 || code == 403) = false) :
    ∀ m a, getWithRetryAux resp a m
      = (none, a + m, (List.range m).map (fun i => 2 ^ (a + i))) := by
  intro m
  induction m with
  | zero => intro a; simp [getWithRetryAux]
  | succ n ih =>
    intro a
    have step := rangePow_step a n
    unfold getWithRetryAux
    rw [h a]
    simp only [hc, if_false, ih (a + 1), step]
    refine congrArg (fun x => (none, x, _)) ?_
    omega

theorem getWithRetryAux_const_transport (resp : Nat → HttpOutcome α)
    (h : ∀ n, resp n = HttpOutcome.transportError) :
    ∀ m a, getWithRetryAux resp a m
      = (none, a + m, (List.range m).map (fun i => 2 ^ (a + i))) := by
  intro m
  induction m with
  | zero => intro a; simp [getWithRetryAux]
  | succ n ih =>
    intro a
    have step := rangePow_step a n
    unfold getWithRetryAux
    rw [h a]
    simp only [ih (a + 1), step]
    refine congrArg (fun x => (none, x, _)) ?_
    omega

theorem getWithRetryAux_auth_abort (resp : Nat → HttpOutcome α) (a m code : Nat)
    (h : resp a = HttpOutcome.status code) (hc : code = 401 ∨ code = 403) :
    getWithRetryAux resp a (m + 1) = (none, a + 1, []) := by
  unfold getWithRetryAux
  rw [h]
  rcases hc with rfl | rfl <;> simp

/-- Claim C3: `get_with_retry` retries a 5xx response and a
transport/timeout error with an exponential backoff sleep of
`2 ** attempt` seconds (so the delay doubles each attempt) up to the
attempt ceiling of 5 that every caller leaves in place: a fetch always
answering 503 (or always raising a transport error) is attempted exactly
5 times, sleeping 1, 2, 4, 8, 16 seconds, and then yields the failure
sentinel `none` without an unhandled fault; a 401 or 403 response makes
it return the failure sentinel after that single attempt, with no further
attempts and no backoff sleep; and whatever the outcomes, the sleep
sequence is a doubling run `2 ^ 0, ..., 2 ^ (k - 1)`. -/
theorem get_with_retry_policy (resp503 respErr resp401 resp403 resp : Nat → HttpOutcome α)
    (h503 : ∀ n, resp503 n = HttpOutcome.status 503)
    (hErr : ∀ n, respErr n = HttpOutcome.transportError)
    (h401 : resp401 0 = HttpOutcome.status 401)
    (h403 : resp403 0 = HttpOutcome.status 403) :
    get_with_retry resp503 5 = (none, 5, [1, 2, 4, 8, 16]) ∧
    get_with_retry respErr 5 = (none, 5, [1, 2, 4, 8, 16]) ∧
    get_with_retry resp401 5 = (none, 1, []) ∧
    get_with_retry resp403 5 = (none, 1, []) ∧
    (∃ k, (get_with_retry resp 5).2.2 = (List.range k).map (fun i => 2 ^ i)) := by
  refine ⟨?_, ?_, ?_, ?_, ?_⟩
  · show getWithRetryAux resp503 0 5 = (none, 5, [1, 2, 4, 8, 16])
    rw [getWithRetryAux_const_status resp503 503 h503 (by decide) 5 0]
    rfl
  · show getWithRetryAux respErr 0 5 = (none, 5, [1, 2, 4, 8, 16])
    rw [getWithRetryAux_const_transport respErr hErr 5 0]
    rfl
  · show getWithRetryAux resp401 0 5 = (none, 1, [])
    exact getWithRetryAux_auth_abort resp401 0 4 401 h401 (Or.inl rfl)
  · show getWithRetryAux resp403 0 5 = (none, 1, [])
    exact getWithRetryAux_auth_abort resp403 0 4 403 h403 (Or.inr rfl)
  · simpa using getWithRetryAux_delays resp 5 0

/-- Witness for C3 at concrete always-503, always-transport-error,
immediate-401 and immediate-403 responders. -/
theorem get_with_retry_policy_witness :
    get_with_retry (fun _ => HttpOutcome.status (α := Nat) 503) 5
      = (none, 5, [1, 2, 4, 8, 16]) ∧
    get_with_retry (fun _ => HttpOutcome.transportError (α := Nat)) 5
      = (none, 5, [1, 2, 4, 8, 16]) ∧
    get_with_retry (fun _ => HttpOutcome.status (α := Nat) 401) 5 = (none, 1, []) ∧
    get_with_retry (fun _ => HttpOutcome.status (α := Nat) 403) 5 = (none, 1, []) ∧
    (∃ k, (get_with_retry (fun _ => HttpOutcome.status (α := Nat) 503) 5).2.2
      = (List.range k).map (fun i => 2 ^ i)) := by
  have h := get_with_retry_policy
    (fun _ => HttpOutcome.status (α := Nat) 503)
    (fun _ => HttpOutcome.transportError)
    (fun _ => HttpOutcome.status 401)
    (fun _ => HttpOutcome.status 403)
    (fun _ => HttpOutcome.status 503)
    (fun _ => rfl) (fun _ => rfl) rfl rfl
  exact ⟨h.1, h.2.1, h.2.2.1, h.2.2.2.1, h.2.2.2.2⟩

/-! ### Progress calculator totality (claim C8) -/

/-- A payload carrying a truthy non-string `created_at` (for example the
JSON number 12345): in the source, `created_at_str.replace('Z', '+00:00')`
then raises `AttributeError`, which `except (ValueError, TypeError)` does
not catch. -/
def nonStringTimestampShipment : Shipment :=
  { id := some 1
    state := some "active"
    created_at := some TsValue.nonStr
    closed_at := none
    car_number := none
    responsible := none
    transfers := []
    tares := [] }

/-- Claim C8 (code bug): the spec promises that no exception ever escapes
the progress calculator even for non-string timestamps, but evaluating
`get_shipment_grouped_info` on a payload whose `created_at` is a truthy
non-string (a JSON number) raises `AttributeError` out of the function;
the surrounding handler catches only `ValueError` and `TypeError`. -/
theorem grouped_info_raises_on_nonstring_timestamp :
    get_shipment_grouped_info nonStringTimestampShipment
        (calculate_max_stats nonStringTimestampShipment)
      = Except.error PyErr.attributeError := by
  rfl

/-! ### Authentication (claim C10) -/

/-- A one-account configuration with a configured token and no bearer
credential yet. -/
def authAccounts : List (String × ShipmentConfig) :=
  [("account_1", { token := some "tok", bearer_token := none })]

/-- Counterexample to C10 as stated: with a configured token and a probe
answering 500, `authenticate` reports failure, yet the session's bearer
credential HAS been set to the token — the source stores the token as
`bearer_token` before issuing the probe, so a failed probe does not leave
the credential unset. -/
theorem authenticate_sets_bearer_despite_probe_failure :
    (authenticate authAccounts "account_1" (some 500)).1.1 = false ∧
    alistLookup (authenticate authAccounts "account_1" (some 500)).2 "account_1"
      = some { token := some "tok", bearer_token := some "tok" } := by
  exact ⟨rfl, rfl⟩

/-- Claim C10 (amended): `authenticate` validates the externally supplied
configured token against a lightweight probe and never performs a login
flow (the credential it stores is the configured token verbatim, not a
derived one); whenever the account exists and a token is configured it
stores the token as the session's bearer credential BEFORE probing — so
the credential is set to the token even when the probe fails — and it
returns a (success, reason) pair whose success holds exactly when the
probe answers 200. -/
theorem authenticate_spec (accounts : List (String × ShipmentConfig))
    (account_id : String) (probe : Option Nat) (acc : ShipmentConfig)
    (token : String) (hacc : alistLookup accounts account_id = some acc)
    (htok : acc.token = some token) :
    (authenticate accounts account_id probe).2
      = alistInsert accounts account_id { acc with bearer_token := some token } ∧
    ((authenticate accounts account_id probe).1.1 = true ↔ probe = some 200) := by
  unfold authenticate
  rw [hacc]
  simp only [htok]
  cases probe with
  | none => simp
  | some code =>
    by_cases hcode : code = 200
    · subst hcode
      simp
    · have : (code == 200) = false := by simpa using hcode
      simp [this, hcode]

/-- Witness for C10 (amended) at the concrete one-account configuration,
probing successfully. -/
theorem authenticate_spec_witness :
    (authenticate authAccounts "account_1" (some 200)).2
      = alistInsert authAccounts "account_1"
          { token := some "tok", bearer_token := some "tok" } ∧
    ((authenticate authAccounts "account_1" (some 200)).1.1 = true ↔
      (some 200 : Option Nat) = some 200) :=
  authenticate_spec authAccounts "account_1" (some 200)
    { token := some "tok", bearer_token := none } "tok" rfl rfl

/-! ### Progress computation (claim C4) -/

theorem foldl_transfers_max_boxes (l : List Transfer) (acc : MaxStats) :
    (l.foldl (fun acc transfer =>
      ({ max_boxes := acc.max_boxes + transfer.box_count.getD 0,
         max_items := acc.max_items + transfer.item_count.getD 0 } : MaxStats)) acc).max_boxes
      = acc.max_boxes + (l.map (fun t => t.box_count.getD 0)).sum := by
  induction l generalizing acc with
  | nil => simp
  | cons hd tl ih =>
    simp only [List.foldl_cons, List.map_cons, List.sum_cons, ih]
    omega

theorem foldl_transfers_max_items (l : List Transfer) (acc : MaxStats) :
    (l.foldl (fun acc transfer =>
      ({ max_boxes := acc.max_boxes + transfer.box_count.getD 0,
         max_items := acc.max_items + transfer.item_count.getD 0 } : MaxStats)) acc).max_items
      = acc.max_items + (l.map (fun t => t.item_count.getD 0)).sum := by
  induction l generalizing acc with
  | nil => simp
  | cons hd tl ih =>
    simp only [List.foldl_cons, List.map_cons, List.sum_cons, ih]
    omega

theorem foldl_tares_max_boxes (l : List Tare) (acc : MaxStats) :
    (l.foldl (fun acc tare =>
      ({ max_boxes := acc.max_boxes + 1,
         max_items := acc.max_items + tare.item_count.getD 0 } : MaxStats)) acc).max_boxes
      = acc.max_boxes + l.length := by
  induction l generalizing acc with
  | nil => simp
  | cons hd tl ih =>
    simp only [List.foldl_cons, List.length_cons, ih]
    omega

theorem foldl_tares_max_items (l : List Tare) (acc : MaxStats) :
    (l.foldl (fun acc tare =>
      ({ max_boxes := acc.max_boxes + 1,
         max_items := acc.max_items + tare.item_count.getD 0 } : MaxStats)) acc).max_items
      = acc.max_items + (l.map (fun t => t.item_count.getD 0)).sum := by
  induction l generalizing acc with
  | nil => simp
  | cons hd tl ih =>
    simp only [List.foldl_cons, List.map_cons, List.sum_cons, ih]
    omega

/-- The two sum equations of `calculate_max_stats`: transfer box counts
plus one box per tare, and transfer item counts plus tare item counts. -/
theorem calculate_max_stats_spec (shipment : Shipment) :
    (calculate_max_stats shipment).max_boxes
      = (shipment.transfers.map (fun t => t.box_count.getD 0)).sum
        + shipment.tares.length ∧
    (calculate_max_stats shipment).max_items
      = (shipment.transfers.map (fun t => t.item_count.getD 0)).sum
        + (shipment.tares.map (fun t => t.item_count.getD 0)).sum := by
  unfold calculate_max_stats
  constructor
  · simp only [foldl_tares_max_boxes, foldl_transfers_max_boxes]
    omega
  · simp only [foldl_tares_max_items, foldl_transfers_max_items]
    omega

theorem foldl_scan_transfers_fst (l : List Transfer) (acc : Nat × Nat × Nat) :
    (l.foldl (fun (acc : Nat × Nat × Nat) transfer =>
      (acc.1 + transfer.box_scanned.getD 0,
       acc.2.1 + transfer.item_scanned.getD 0,
       acc.2.2 + transfer.remain_count.getD 0)) acc).1
      = acc.1 + (l.map (fun t => t.box_scanned.getD 0)).sum := by
  induction l generalizing acc with
  | nil => simp
  | cons hd tl ih =>
    simp only [List.foldl_cons, List.map_cons, List.sum_cons, ih]
    omega

theorem foldl_scan_transfers_snd (l : List Transfer) (acc : Nat × Nat × Nat) :
    (l.foldl (fun (acc : Nat × Nat × Nat) transfer =>
      (acc.1 + transfer.box_scanned.getD 0,
       acc.2.1 + transfer.item_scanned.getD 0,
       acc.2.2 + transfer.remain_count.getD 0)) acc).2.1
      = acc.2.1 + (l.map (fun t => t.item_scanned.getD 0)).sum := by
  induction l generalizing acc with
  | nil => simp
  | cons hd tl ih =>
    simp only [List.foldl_cons, List.map_cons, List.sum_cons, ih]
    omega

theorem foldl_scan_transfers_rem (l : List Transfer) (acc : Nat × Nat × Nat) :
    (l.foldl (fun (acc : Nat × Nat × Nat) transfer =>
      (acc.1 + transfer.box_scanned.getD 0,
       acc.2.1 + transfer.item_scanned.getD 0,
       acc.2.2 + transfer.remain_count.getD 0)) acc).2.2
      = acc.2.2 + (l.map (fun t => t.remain_count.getD 0)).sum := by
  induction l generalizing acc with
  | nil => simp
  | cons hd tl ih =>
    simp only [List.foldl_cons, List.map_cons, List.sum_cons, ih]
    omega

theorem foldl_scan_tares_fst (l : List Tare) (acc : Nat × Nat) :
    (l.foldl (fun (acc : Nat × Nat) tare =>
      if tare.is_scanned.getD false then
        (acc.1 + 1, acc.2 + tare.item_count.getD 0)
      else acc) acc).1
      = acc.1 + (l.filter (fun t => t.is_scanned.getD false)).length := by
  induction l generalizing acc with
  | nil => simp
  | cons hd tl ih =>
    by_cases hs : hd.is_scanned.getD false
    · simp only [List.foldl_cons, List.filter_cons, hs, if_true, List.length_cons, ih]
      omega
    · simp only [List.foldl_cons, List.filter_cons, hs, if_false, ih, Bool.false_eq_true]

theorem foldl_scan_tares_snd (l : List Tare) (acc : Nat × Nat) :
    (l.foldl (fun (acc : Nat × Nat) tare =>
      if tare.is_scanned.getD false then
        (acc.1 + 1, acc.2 + tare.item_count.getD 0)
      else acc) acc).2
      = acc.2 + ((l.filter (fun t => t.is_scanned.getD false)).map
          (fun t => t.item_count.getD 0)).sum := by
  induction l generalizing acc with
  | nil => simp
  | cons hd tl ih =>
    by_cases hs : hd.is_scanned.getD false
    · simp only [List.foldl_cons, List.filter_cons, hs, if_true, List.map_cons,
        List.sum_cons, ih]
      omega
    · simp only [List.foldl_cons, List.filter_cons, hs, if_false, ih, Bool.false_eq_true]

/-- Claim C4: for every shipment payload on which the progress
calculator returns, the computation satisfies the spec's sums —
`max_boxes` is the transfer box counts plus one box per tare,
`max_items` the transfer item counts plus the tare item counts,
`scanned_boxes` the transfer scanned boxes plus the scanned tares,
`scanned_items` the transfer scanned items plus the item counts of
scanned tares only, `remaining_items` the transfer remain counts — and
each percentage is `round(scanned / max * 100, 1)` when the
corresponding maximum is positive and 0 otherwise, the zero guard ruling
out any division-by-zero fault. -/
theorem progress_computation_correct (shipment : Shipment) (info : GroupedInfo)
    (h : get_shipment_grouped_info shipment (calculate_max_stats shipment)
      = Except.ok info) :
    info.max_boxes
      = (shipment.transfers.map (fun t => t.box_count.getD 0)).sum
        + shipment.tares.length ∧
    info.max_items
      = (shipment.transfers.map (fun t => t.item_count.getD 0)).sum
        + (shipment.tares.map (fun t => t.item_count.getD 0)).sum ∧
    info.scanned_boxes
      = (shipment.transfers.map (fun t => t.box_scanned.getD 0)).sum
        + (shipment.tares.filter (fun t => t.is_scanned.getD false)).length ∧
    info.scanned_items
      = (shipment.transfers.map (fun t => t.item_scanned.getD 0)).sum
        + ((shipment.tares.filter (fun t => t.is_scanned.getD false)).map
            (fun t => t.item_count.getD 0)).sum ∧
    info.remaining_items
      = (shipment.transfers.map (fun t => t.remain_count.getD 0)).sum ∧
    info.box_percentage
      = (if 0 < info.max_boxes then
          pyRound1 ((info.scanned_boxes : ℚ) / (info.max_boxes : ℚ) * 100)
        else 0) ∧
    info.item_percentage
      = (if 0 < info.max_items then
          pyRound1 ((info.scanned_items : ℚ) / (info.max_items : ℚ) * 100)
        else 0) := by
  obtain ⟨hmb, hmi⟩ := calculate_max_stats_spec shipment
  unfold get_shipment_grouped_info at h
  cases hc : parseTs shipment.created_at with
  | error e => rw [hc] at h; simp at h
  | ok created =>
    rw [hc] at h
    cases hcl : parseTs shipment.closed_at with
    | error e => rw [hcl] at h; simp at h
    | ok closed =>
      rw [hcl] at h
      simp only [Except.ok.injEq] at h
      subst h
      refine ⟨hmb, hmi, ?_, ?_, ?_, ?_, ?_⟩
      · simp only [foldl_scan_tares_fst, foldl_scan_transfers_fst]
        omega
      · simp only [foldl_scan_tares_snd, foldl_scan_transfers_snd]
        omega
      · simp only [foldl_scan_transfers_rem]
        omega
      · rfl
      · rfl

/-- The concrete payload of the witness for C4: one transfer with five
boxes (three scanned) and two tares, one scanned carrying two items, one
unscanned carrying one. -/
def sampleShipment : Shipment :=
  { id := some 77
    state := some "active"
    created_at := none
    closed_at := none
    car_number := none
    responsible := none
    transfers := [{ box_count := some 5, item_count := none,
                    box_scanned := some 3, item_scanned := none,
                    remain_count := none }]
    tares := [{ is_scanned := some true, item_count := some 2 },
              { is_scanned := some false, item_count := some 1 }] }

/-- The grouped info the progress calculator yields on `sampleShipment`:
4 of 7 boxes and 2 of 3 items scanned (the percentages round to 57.1 and
66.7). -/
def sampleInfo : GroupedInfo :=
  { shipment_id := some 77
    state := some "active"
    vehicle := "N/A"
    responsible := "N/A"
    created_at := none
    closed_at := none
    duration := none
    max_boxes := 7
    max_items := 3
    scanned_boxes := 4
    scanned_items := 2
    remaining_items := 0
    box_percentage := pyRound1 (((4 : ℕ) : ℚ) / ((7 : ℕ) : ℚ) * 100)
    item_percentage := pyRound1 (((2 : ℕ) : ℚ) / ((3 : ℕ) : ℚ) * 100) }

/-- Witness for C4 at `sampleShipment`. -/
theorem progress_computation_correct_witness :
    sampleInfo.max_boxes
      = (sampleShipment.transfers.map (fun t => t.box_count.getD 0)).sum
        + sampleShipment.tares.length ∧
    sampleInfo.max_items
      = (sampleShipment.transfers.map (fun t => t.item_count.getD 0)).sum
        + (sampleShipment.tares.map (fun t => t.item_count.getD 0)).sum ∧
    sampleInfo.scanned_boxes
      = (sampleShipment.transfers.map (fun t => t.box_scanned.getD 0)).sum
        + (sampleShipment.tares.filter (fun t => t.is_scanned.getD false)).length ∧
    sampleInfo.scanned_items
      = (sampleShipment.transfers.map (fun t => t.item_scanned.getD 0)).sum
        + ((sampleShipment.tares.filter (fun t => t.is_scanned.getD false)).map
            (fun t => t.item_count.getD 0)).sum ∧
    sampleInfo.remaining_items
      = (sampleShipment.transfers.map (fun t => t.remain_count.getD 0)).sum ∧
    sampleInfo.box_percentage
      = (if 0 < sampleInfo.max_boxes then
          pyRound1 ((sampleInfo.scanned_boxes : ℚ) / (sampleInfo.max_boxes : ℚ) * 100)
        else 0) ∧
    sampleInfo.item_percentage
      = (if 0 < sampleInfo.max_items then
          pyRound1 ((sampleInfo.scanned_items : ℚ) / (sampleInfo.max_items : ℚ) * 100)
        else 0) :=
  progress_computation_correct sampleShipment sampleInfo (by rfl)

/-! ### Change detector (claim C5) -/

/-- Claim C5: `has_progress_changed` returns true when the shipment has
no prior snapshot in the store, and with a stored snapshot it returns
true exactly when at least one of the state, the scanned box count or
the scanned item count differs; consequently, after the prior snapshot
is committed, a second call whose three compared fields are unchanged
returns false (whatever the other fields do), and a call differing in
any one of the three returns true. -/
theorem has_progress_changed_spec (shipment_id : Nat) (current : GroupedInfo)
    (store : List (Nat × GroupedInfo)) :
    (alistLookup store shipment_id = none →
      has_progress_changed shipment_id current store = true) ∧
    (∀ prev, alistLookup store shipment_id = some prev →
      (has_progress_changed shipment_id current store = true ↔
        (current.state ≠ prev.state ∨
         current.scanned_boxes ≠ prev.scanned_boxes ∨
         current.scanned_items ≠ prev.scanned_items))) ∧
    (∀ next : GroupedInfo, next.state = current.state →
      next.scanned_boxes = current.scanned_boxes →
      next.scanned_items = current.scanned_items →
      has_progress_changed shipment_id next
        (update_last_progress shipment_id current store) = false) := by
  refine ⟨?_, ?_, ?_⟩
  · intro h
    unfold has_progress_changed
    rw [h]
  · intro prev h
    unfold has_progress_changed
    rw [h]
    by_cases h1 : current.state = prev.state
    · by_cases h2 : current.scanned_boxes = prev.scanned_boxes
      · by_cases h3 : current.scanned_items = prev.scanned_items
        · simp [h1, h2, h3]
        · simp [h1, h2, h3]
      · simp [h1, h2]
    · simp [h1]
  · intro next h1 h2 h3
    unfold has_progress_changed
    rw [update_last_progress, alistLookup_alistInsert_self]
    simp [h1, h2, h3]

/-- A snapshot with the given compared fields and placeholder values in
every other field, used to instantiate change-detector statements. -/
def mkInfo (state : Option String) (sb si ri : Nat) : GroupedInfo :=
  { shipment_id := none
    state := state
    vehicle := "N/A"
    responsible := "N/A"
    created_at := none
    closed_at := none
    duration := none
    max_boxes := 0
    max_items := 0
    scanned_boxes := sb
    scanned_items := si
    remaining_items := ri
    box_percentage := 0
    item_percentage := 0 }

/-- Witness for C5: first observation reports a change; a repeat call
with the three compared fields unchanged (another field differing)
reports none; changing the state, the scanned boxes or the scanned items
alone each reports a change. -/
theorem has_progress_changed_spec_witness :
    has_progress_changed 1 (mkInfo (some "active") 4 2 0) [] = true ∧
    has_progress_changed 1 (mkInfo (some "active") 4 2 9)
      (update_last_progress 1 (mkInfo (some "active") 4 2 0) []) = false ∧
    (has_progress_changed 1 (mkInfo (some "closing") 4 2 0)
      (update_last_progress 1 (mkInfo (some "active") 4 2 0) []) = true ↔
      ((mkInfo (some "closing") 4 2 0).state ≠ (mkInfo (some "active") 4 2 0).state ∨
       (mkInfo (some "closing") 4 2 0).scanned_boxes
         ≠ (mkInfo (some "active") 4 2 0).scanned_boxes ∨
       (mkInfo (some "closing") 4 2 0).scanned_items
         ≠ (mkInfo (some "active") 4 2 0).scanned_items)) := by
  refine ⟨?_, ?_, ?_⟩
  · exact (has_progress_changed_spec 1 (mkInfo (some "active") 4 2 0) []).1 rfl
  · exact (has_progress_changed_spec 1 (mkInfo (some "active") 4 2 0)
      []).2.2 (mkInfo (some "active") 4 2 9) rfl rfl rfl
  · exact (has_progress_changed_spec 1 (mkInfo (some "closing") 4 2 0)
      (update_last_progress 1 (mkInfo (some "active") 4 2 0) [])).2.1
      (mkInfo (some "active") 4 2 0) (by rfl)

/-! ### Per-key facts about the refresh-loop body -/

theorem processMonitored_processed_eq (env : RefreshEnv) (st : SessionState)
    (j : Nat) :
    (processMonitored env st j).1.processed_shipments = st.processed_shipments := by
  unfold processMonitored
  repeat' split
  all_goals rfl

theorem processMonitored_message_ids_eq (env : RefreshEnv) (st : SessionState)
    (j : Nat) :
    (processMonitored env st j).1.message_ids = st.message_ids := by
  unfold processMonitored
  repeat' split
  all_goals rfl

theorem processMonitored_events_id (env : RefreshEnv) (st : SessionState)
    (j : Nat) (e : Event) (he : e ∈ (processMonitored env st j).2.1) :
    e.shipmentId = j := by
  unfold processMonitored at he
  repeat' split at he
  all_goals simp at he
  all_goals
    first
      | (subst he; rfl)
      | (rcases he with rfl | rfl <;> rfl)
      | (rcases he with rfl | rfl | rfl <;> rfl)

theorem processMonitored_skip_completed (env : RefreshEnv) (st : SessionState)
    (j : Nat) (h : j ∈ st.completed_shipments) :
    processMonitored env st j = (st, [], none) := by
  unfold processMonitored
  rw [if_pos h]

theorem processMonitored_completed_mono (env : RefreshEnv) (st : SessionState)
    (j i : Nat) (h : i ∈ st.completed_shipments) :
    i ∈ (processMonitored env st j).1.completed_shipments := by
  unfold processMonitored
  repeat' split
  all_goals first | exact h | exact mem_setAdd_of_mem _ _ _ h

theorem processMonitored_completed_other (env : RefreshEnv) (st : SessionState)
    (j i : Nat) (hne : i ≠ j) :
    (i ∈ (processMonitored env st j).1.completed_shipments ↔
      i ∈ st.completed_shipments) := by
  unfold processMonitored
  repeat' split
  all_goals simp [mem_setAdd_iff, hne]

theorem processMonitored_lookup_other (env : RefreshEnv) (st : SessionState)
    (j i : Nat) (hne : i ≠ j) :
    alistLookup (processMonitored env st j).1.last_progress i
      = alistLookup st.last_progress i ∧
    alistLookup (processMonitored env st j).1.last_activity_time i
      = alistLookup st.last_activity_time i ∧
    alistLookup (processMonitored env st j).1.monitored_shipments i
      = alistLookup st.monitored_shipments i := by
  unfold processMonitored
  repeat' split
  all_goals refine ⟨?_, ?_, ?_⟩
  all_goals
    first
      | rfl
      | (rw [update_last_progress]; exact alistLookup_alistInsert_ne _ _ _ _ hne)
      | exact alistLookup_alistInsert_ne _ _ _ _ hne
      | exact alistLookup_alistErase_ne _ _ _ hne
      | (rw [alistLookup_alistErase_ne _ _ _ hne]
         exact alistLookup_alistInsert_ne _ _ _ _ hne)

theorem parseTs_ne_error (o : Option TsValue) (h : o ≠ some TsValue.nonStr) :
    ∃ r, parseTs o = Except.ok r := by
  cases o with
  | none => exact ⟨none, rfl⟩
  | some v =>
    cases v with
    | str p => exact ⟨p, rfl⟩
    | nonStr => exact absurd rfl h

theorem grouped_info_wf (s : Shipment) (ms : MaxStats)
    (hc : s.created_at ≠ some TsValue.nonStr)
    (hcl : s.closed_at ≠ some TsValue.nonStr) :
    ∃ info, get_shipment_grouped_info s ms = Except.ok info := by
  obtain ⟨r1, h1⟩ := parseTs_ne_error _ hc
  obtain ⟨r2, h2⟩ := parseTs_ne_error _ hcl
  unfold get_shipment_grouped_info
  rw [h1, h2]
  exact ⟨_, rfl⟩

theorem processMonitored_editfail_snapshot (env : RefreshEnv) (st : SessionState)
    (j i : Nat) (hf : env.editOk i = false) :
    alistLookup (processMonitored env st j).1.last_progress i
      = alistLookup st.last_progress i ∧
    alistLookup (processMonitored env st j).1.last_activity_time i
      = alistLookup st.last_activity_time i := by
  by_cases hij : i = j
  · subst hij
    unfold processMonitored
    repeat' split
    all_goals refine ⟨?_, ?_⟩
    all_goals first | rfl | simp_all
  · exact ⟨(processMonitored_lookup_other env st j i hij).1,
      (processMonitored_lookup_other env st j i hij).2.1⟩

theorem processMonitored_state_send_agnostic
    (details : Nat → Option Shipment) (send1 send2 : Nat → String → Option Nat)
    (edits : Nat → Bool) (delete1 delete2 : Nat → Bool) (now timeout : Int)
    (st : SessionState) (j : Nat) :
    (processMonitored ⟨details, send1, edits, delete1, now, timeout⟩ st j).1
      = (processMonitored ⟨details, send2, edits, delete2, now, timeout⟩ st j).1 ∧
    (processMonitored ⟨details, send1, edits, delete1, now, timeout⟩ st j).2.2
      = (processMonitored ⟨details, send2, edits, delete2, now, timeout⟩ st j).2.2 := by
  unfold processMonitored
  dsimp only
  repeat' split
  all_goals exact ⟨rfl, rfl⟩

theorem processMonitored_no_error (env : RefreshEnv) (st : SessionState) (j : Nat)
    (hwf : ∀ jj s, env.details jj = some s →
      s.created_at ≠ some TsValue.nonStr ∧ s.closed_at ≠ some TsValue.nonStr) :
    (processMonitored env st j).2.2 = none := by
  unfold processMonitored
  split
  · rfl
  · split
    · rfl
    · cases hdet : env.details j with
      | none => rfl
      | some sd =>
        dsimp only
        obtain ⟨hc1, hc2⟩ := hwf j sd hdet
        obtain ⟨info, hok⟩ := grouped_info_wf sd (calculate_max_stats sd) hc1 hc2
        rw [hok]
        dsimp only
        repeat' split
        all_goals rfl

theorem processMonitored_evict (env : RefreshEnv) (st : SessionState)
    (j : Nat) (la : Int) (hnc : j ∉ st.completed_shipments)
    (hla : alistLookup st.last_activity_time j = some la)
    (hstale : env.inactivity_timeout < env.now - la) :
    processMonitored env st j
      = ({ st with monitored_shipments := alistErase st.monitored_shipments j },
         [], none) := by
  unfold processMonitored
  rw [if_neg hnc, hla]
  simp [hstale]

theorem processMonitored_at_j_frozen (env : RefreshEnv) (st : SessionState)
    (j : Nat) (d : Shipment) (la : Int)
    (hnc : j ∉ st.completed_shipments)
    (hla : alistLookup st.last_activity_time j = some la)
    (hfresh : ¬ env.inactivity_timeout < env.now - la)
    (hdet : env.details j = some d)
    (hterm : isTerminalState d.state = false)
    (hedit : env.editOk j = false) :
    (processMonitored env st j).1.last_progress = st.last_progress ∧
    (processMonitored env st j).1.last_activity_time = st.last_activity_time ∧
    (processMonitored env st j).1.completed_shipments = st.completed_shipments ∧
    alistLookup (processMonitored env st j).1.monitored_shipments j = some d := by
  unfold processMonitored
  rw [if_neg hnc, hla]
  rw [if_neg (show ¬ ((match (some la : Option Int) with
      | some last_activity =>
        decide (env.inactivity_timeout < env.now - last_activity)
      | none => false) = true) from by simpa using hfresh)]
  rw [hdet]
  dsimp only
  split
  · exact ⟨rfl, rfl, rfl, alistLookup_alistInsert_self _ _ _⟩
  · rw [if_neg (by simp [hterm])]
    split
    · split
      · rw [if_neg (by simp [hedit])]
        exact ⟨rfl, rfl, rfl, alistLookup_alistInsert_self _ _ _⟩
      · exact ⟨rfl, rfl, rfl, alistLookup_alistInsert_self _ _ _⟩
    · exact ⟨rfl, rfl, rfl, alistLookup_alistInsert_self _ _ _⟩

/-! ### Per-shipment facts about the discovery-loop body -/

theorem processDiscovered_events_id (env : DiscoveryEnv) (st : SessionState)
    (s : Shipment) (e : Event)
    (he : e ∈ (processDiscovered env st s).2.1) :
    some e.shipmentId = s.id := by
  unfold processDiscovered at he
  repeat' split at he
  all_goals simp at he
  all_goals rcases he with rfl | rfl <;> simp_all [Event.shipmentId]

theorem processDiscovered_skip_processed (env : DiscoveryEnv) (st : SessionState)
    (s : Shipment) (i : Nat) (hid : s.id = some i)
    (h : i ∈ st.processed_shipments) :
    processDiscovered env st s = (st, [], none) := by
  unfold processDiscovered
  rw [hid]
  dsimp only
  by_cases h0 : (i == 0) = true
  · rw [if_pos h0]
  · rw [if_neg h0, if_pos h]

theorem processDiscovered_processed_mono (env : DiscoveryEnv) (st : SessionState)
    (s : Shipment) (i : Nat) (h : i ∈ st.processed_shipments) :
    i ∈ (processDiscovered env st s).1.processed_shipments := by
  unfold processDiscovered
  repeat' split
  all_goals first | exact h | exact mem_setAdd_of_mem _ _ _ h

theorem processDiscovered_completed_mono (env : DiscoveryEnv) (st : SessionState)
    (s : Shipment) (i : Nat) (h : i ∈ st.completed_shipments) :
    i ∈ (processDiscovered env st s).1.completed_shipments := by
  unfold processDiscovered
  repeat' split
  all_goals first | exact h | exact mem_setAdd_of_mem _ _ _ h

theorem processDiscovered_other (env : DiscoveryEnv) (st : SessionState)
    (s : Shipment) (i : Nat) (hne : s.id ≠ some i) :
    (i ∈ (processDiscovered env st s).1.processed_shipments ↔
      i ∈ st.processed_shipments) ∧
    (i ∈ (processDiscovered env st s).1.completed_shipments ↔
      i ∈ st.completed_shipments) ∧
    alistLookup (processDiscovered env st s).1.message_ids i
      = alistLookup st.message_ids i ∧
    alistLookup (processDiscovered env st s).1.last_progress i
      = alistLookup st.last_progress i ∧
    alistLookup (processDiscovered env st s).1.last_activity_time i
      = alistLookup st.last_activity_time i ∧
    alistLookup (processDiscovered env st s).1.monitored_shipments i
      = alistLookup st.monitored_shipments i := by
  unfold processDiscovered
  cases hid : s.id with
  | none => exact ⟨Iff.rfl, Iff.rfl, rfl, rfl, rfl, rfl⟩
  | some j =>
    have hji : i ≠ j := fun h => hne (by rw [hid, h])
    dsimp only
    repeat' split
    all_goals refine ⟨?_, ?_, ?_, ?_, ?_, ?_⟩
    all_goals
      first
        | exact Iff.rfl
        | rfl
        | exact alistLookup_alistInsert_ne _ _ _ _ hji
        | simp [mem_setAdd_iff, hji]

theorem processDiscovered_send_live_fail (env : DiscoveryEnv) (st : SessionState)
    (s : Shipment) (i : Nat) (hf : env.send i "live" = none) :
    alistLookup (processDiscovered env st s).1.message_ids i
      = alistLookup st.message_ids i ∧
    alistLookup (processDiscovered env st s).1.last_progress i
      = alistLookup st.last_progress i ∧
    alistLookup (processDiscovered env st s).1.last_activity_time i
      = alistLookup st.last_activity_time i ∧
    alistLookup (processDiscovered env st s).1.monitored_shipments i
      = alistLookup st.monitored_shipments i := by
  by_cases hs : s.id = some i
  · unfold processDiscovered
    rw [hs]
    dsimp only
    repeat' split
    all_goals refine ⟨?_, ?_, ?_, ?_⟩
    all_goals first | rfl | simp_all [optTruthy]
  · have h := processDiscovered_other env st s i hs
    exact ⟨h.2.2.1, h.2.2.2.1, h.2.2.2.2.1, h.2.2.2.2.2⟩

theorem processDiscovered_state_send_agnostic
    (shipments : Option (List Shipment)) (details : Nat → Option Shipment)
    (send1 send2 : Nat → String → Option Nat) (now : Int)
    (mst : Option Int)
    (hagree : ∀ jj, send1 jj "live" = send2 jj "live")
    (st : SessionState) (s : Shipment) :
    (processDiscovered ⟨shipments, details, send1, now, mst⟩ st s).1
      = (processDiscovered ⟨shipments, details, send2, now, mst⟩ st s).1 ∧
    (processDiscovered ⟨shipments, details, send1, now, mst⟩ st s).2.2
      = (processDiscovered ⟨shipments, details, send2, now, mst⟩ st s).2.2 := by
  unfold processDiscovered
  dsimp only
  simp only [hagree]
  repeat' split
  all_goals exact ⟨rfl, rfl⟩

/-! ### Iteration-level facts about the refresh loop -/

theorem runRefreshList_processed_eq (env : RefreshEnv) (keys : List Nat)
    (st : SessionState) :
    (runRefreshList env keys st).1.processed_shipments = st.processed_shipments := by
  induction keys generalizing st with
  | nil => rfl
  | cons k rest ih =>
    have hp := processMonitored_processed_eq env st k
    rcases hr : processMonitored env st k with ⟨st', evs, err⟩
    rw [hr] at hp
    cases err with
    | some e =>
      simp only [runRefreshList]
      rw [hr]
      exact hp
    | none =>
      simp only [runRefreshList]
      rw [hr]
      dsimp only
      rw [ih st']
      exact hp

theorem runRefreshList_message_ids_eq (env : RefreshEnv) (keys : List Nat)
    (st : SessionState) :
    (runRefreshList env keys st).1.message_ids = st.message_ids := by
  induction keys generalizing st with
  | nil => rfl
  | cons k rest ih =>
    have hp := processMonitored_message_ids_eq env st k
    rcases hr : processMonitored env st k with ⟨st', evs, err⟩
    rw [hr] at hp
    cases err with
    | some e =>
      simp only [runRefreshList]
      rw [hr]
      exact hp
    | none =>
      simp only [runRefreshList]
      rw [hr]
      dsimp only
      rw [ih st']
      exact hp

theorem runRefreshList_completed_invariant (env : RefreshEnv) (keys : List Nat)
    (st : SessionState) (i : Nat) (h : i ∈ st.completed_shipments) :
    (∀ e ∈ (runRefreshList env keys st).2, e.shipmentId ≠ i) ∧
    i ∈ (runRefreshList env keys st).1.completed_shipments ∧
    alistLookup (runRefreshList env keys st).1.last_progress i
      = alistLookup st.last_progress i ∧
    alistLookup (runRefreshList env keys st).1.last_activity_time i
      = alistLookup st.last_activity_time i ∧
    alistLookup (runRefreshList env keys st).1.monitored_shipments i
      = alistLookup st.monitored_shipments i := by
  induction keys generalizing st with
  | nil => exact ⟨fun e he => absurd he (List.not_mem_nil e), h, rfl, rfl, rfl⟩
  | cons k rest ih =>
    by_cases hk : k = i
    · subst hk
      simp only [runRefreshList]
      rw [processMonitored_skip_completed env st k h]
      dsimp only
      have := ih st
      simpa using this h
    · have hcm := processMonitored_completed_mono env st k i h
      have hlk := processMonitored_lookup_other env st k i (fun hh => hk hh.symm)
      have hev : ∀ e ∈ (processMonitored env st k).2.1, e.shipmentId ≠ i :=
        fun e he => by
          rw [processMonitored_events_id env st k e he]
          exact hk
      rcases hr : processMonitored env st k with ⟨st', evs, err⟩
      rw [hr] at hcm hlk hev
      cases err with
      | some e =>
        simp only [runRefreshList]
        rw [hr]
        exact ⟨hev, hcm, hlk.1, hlk.2.1, hlk.2.2⟩
      | none =>
        simp only [runRefreshList]
        rw [hr]
        dsimp only
        obtain ⟨ih1, ih2, ih3, ih4, ih5⟩ := ih st' hcm
        refine ⟨?_, ih2, ih3.trans hlk.1, ih4.trans hlk.2.1, ih5.trans hlk.2.2⟩
        intro e he
        rcases List.mem_append.mp he with he | he
        · exact hev e he
        · exact ih1 e he

theorem runRefreshList_editfail (env : RefreshEnv) (keys : List Nat)
    (st : SessionState) (i : Nat) (hf : env.editOk i = false) :
    alistLookup (runRefreshList env keys st).1.last_progress i
      = alistLookup st.last_progress i ∧
    alistLookup (runRefreshList env keys st).1.last_activity_time i
      = alistLookup st.last_activity_time i := by
  induction keys generalizing st with
  | nil => exact ⟨rfl, rfl⟩
  | cons k rest ih =>
    have hlk := processMonitored_editfail_snapshot env st k i hf
    rcases hr : processMonitored env st k with ⟨st', evs, err⟩
    rw [hr] at hlk
    cases err with
    | some e =>
      simp only [runRefreshList]
      rw [hr]
      exact hlk
    | none =>
      simp only [runRefreshList]
      rw [hr]
      dsimp only
      obtain ⟨ih1, ih2⟩ := ih st'
      exact ⟨ih1.trans hlk.1, ih2.trans hlk.2⟩

theorem runRefreshList_state_send_agnostic
    (details : Nat → Option Shipment) (send1 send2 : Nat → String → Option Nat)
    (edits : Nat → Bool) (delete1 delete2 : Nat → Bool) (now timeout : Int)
    (keys : List Nat) (st : SessionState) :
    (runRefreshList ⟨details, send1, edits, delete1, now, timeout⟩ keys st).1
      = (runRefreshList ⟨details, send2, edits, delete2, now, timeout⟩ keys st).1 := by
  induction keys generalizing st with
  | nil => rfl
  | cons k rest ih =>
    obtain ⟨hst, herr⟩ := processMonitored_state_send_agnostic details send1 send2
      edits delete1 delete2 now timeout st k
    rcases hr1 : processMonitored ⟨details, send1, edits, delete1, now, timeout⟩ st k
      with ⟨st1, evs1, err1⟩
    rcases hr2 : processMonitored ⟨details, send2, edits, delete2, now, timeout⟩ st k
      with ⟨st2, evs2, err2⟩
    rw [hr1, hr2] at hst herr
    dsimp only at hst herr
    subst hst
    subst herr
    cases err1 with
    | some e =>
      simp only [runRefreshList]
      rw [hr1, hr2]
    | none =>
      simp only [runRefreshList]
      rw [hr1, hr2]
      dsimp only
      exact ih st1

theorem runRefreshList_evicted_stays (env : RefreshEnv) (keys : List Nat)
    (st : SessionState) (i : Nat) (la : Int)
    (hnc : i ∉ st.completed_shipments)
    (hla : alistLookup st.last_activity_time i = some la)
    (hstale : env.inactivity_timeout < env.now - la)
    (hmon : alistLookup st.monitored_shipments i = none) :
    alistLookup (runRefreshList env keys st).1.monitored_shipments i = none ∧
    (∀ e ∈ (runRefreshList env keys st).2, e.shipmentId ≠ i) ∧
    i ∉ (runRefreshList env keys st).1.completed_shipments := by
  induction keys generalizing st with
  | nil => exact ⟨hmon, fun e he => absurd he (List.not_mem_nil e), hnc⟩
  | cons k rest ih =>
    by_cases hk : k = i
    · subst hk
      simp only [runRefreshList]
      rw [processMonitored_evict env st k la hnc hla hstale]
      dsimp only
      have := ih { st with monitored_shipments := alistErase st.monitored_shipments k }
        hnc hla (alistLookup_alistErase_self _ _)
      simpa using this
    · have hlk := processMonitored_lookup_other env st k i (fun hh => hk hh.symm)
      have hco := processMonitored_completed_other env st k i (fun hh => hk hh.symm)
      have hev : ∀ e ∈ (processMonitored env st k).2.1, e.shipmentId ≠ i :=
        fun e he => by
          rw [processMonitored_events_id env st k e he]
          exact hk
      rcases hr : processMonitored env st k with ⟨st', evs, err⟩
      rw [hr] at hlk hco hev
      cases err with
      | some e =>
        simp only [runRefreshList]
        rw [hr]
        exact ⟨hlk.2.2.trans hmon, hev, fun hh => hnc (hco.mp hh)⟩
      | none =>
        simp only [runRefreshList]
        rw [hr]
        dsimp only
        obtain ⟨ih1, ih2, ih3⟩ := ih st' (fun hh => hnc (hco.mp hh))
          (hlk.2.1.trans hla) (hlk.2.2.trans hmon)
        refine ⟨ih1, ?_, ih3⟩
        intro e he
        rcases List.mem_append.mp he with he | he
        · exact hev e he
        · exact ih2 e he

theorem runRefreshList_evict (env : RefreshEnv) (keys : List Nat)
    (st : SessionState) (i : Nat) (la : Int)
    (hwf : ∀ jj s, env.details jj = some s →
      s.created_at ≠ some TsValue.nonStr ∧ s.closed_at ≠ some TsValue.nonStr)
    (hin : i ∈ keys)
    (hnc : i ∉ st.completed_shipments)
    (hla : alistLookup st.last_activity_time i = some la)
    (hstale : env.inactivity_timeout < env.now - la) :
    alistLookup (runRefreshList env keys st).1.monitored_shipments i = none ∧
    (∀ e ∈ (runRefreshList env keys st).2, e.shipmentId ≠ i) ∧
    i ∉ (runRefreshList env keys st).1.completed_shipments := by
  induction keys generalizing st with
  | nil => exact absurd hin (List.not_mem_nil i)
  | cons k rest ih =>
    by_cases hk : k = i
    · subst hk
      simp only [runRefreshList]
      rw [processMonitored_evict env st k la hnc hla hstale]
      dsimp only
      have := runRefreshList_evicted_stays env rest
        { st with monitored_shipments := alistErase st.monitored_shipments k }
        k la hnc hla hstale (alistLookup_alistErase_self _ _)
      simpa using this
    · have hin' : i ∈ rest := by
        rcases List.mem_cons.mp hin with h | h
        · exact absurd h.symm hk
        · exact h
      have herr := processMonitored_no_error env st k hwf
      have hlk := processMonitored_lookup_other env st k i (fun hh => hk hh.symm)
      have hco := processMonitored_completed_other env st k i (fun hh => hk hh.symm)
      have hev : ∀ e ∈ (processMonitored env st k).2.1, e.shipmentId ≠ i :=
        fun e he => by
          rw [processMonitored_events_id env st k e he]
          exact hk
      rcases hr : processMonitored env st k with ⟨st', evs, err⟩
      rw [hr] at herr hlk hco hev
      dsimp only at herr
      subst herr
      simp only [runRefreshList]
      rw [hr]
      dsimp only
      obtain ⟨ih1, ih2, ih3⟩ := ih st' hin' (fun hh => hnc (hco.mp hh))
        (hlk.2.1.trans hla)
      refine ⟨ih1, ?_, ih3⟩
      intro e he
      rcases List.mem_append.mp he with he | he
      · exact hev e he
      · exact ih2 e he

theorem runRefreshList_keeps_tracked (env : RefreshEnv) (keys : List Nat)
    (st : SessionState) (i : Nat) (d : Shipment) (la : Int)
    (hedit : env.editOk i = false)
    (hnc : i ∉ st.completed_shipments)
    (hla : alistLookup st.last_activity_time i = some la)
    (hfresh : ¬ env.inactivity_timeout < env.now - la)
    (hdet : env.details i = some d)
    (hterm : isTerminalState d.state = false)
    (hmon : (alistLookup st.monitored_shipments i).isSome = true) :
    (alistLookup (runRefreshList env keys st).1.monitored_shipments i).isSome
      = true ∧
    alistLookup (runRefreshList env keys st).1.last_progress i
      = alistLookup st.last_progress i ∧
    alistLookup (runRefreshList env keys st).1.last_activity_time i
      = alistLookup st.last_activity_time i ∧
    i ∉ (runRefreshList env keys st).1.completed_shipments := by
  induction keys generalizing st with
  | nil => exact ⟨hmon, rfl, rfl, hnc⟩
  | cons k rest ih =>
    by_cases hk : k = i
    · subst hk
      obtain ⟨f1, f2, f3, f4⟩ :=
        processMonitored_at_j_frozen env st k d la hnc hla hfresh hdet hterm hedit
      rcases hr : processMonitored env st k with ⟨st', evs, err⟩
      rw [hr] at f1 f2 f3 f4
      dsimp only at f1 f2 f3 f4
      cases err with
      | some e =>
        simp only [runRefreshList]
        rw [hr]
        refine ⟨?_, ?_, ?_, ?_⟩
        · rw [f4]; rfl
        · rw [f1]
        · rw [f2]
        · rw [f3]; exact hnc
      | none =>
        simp only [runRefreshList]
        rw [hr]
        dsimp only
        obtain ⟨ih1, ih2, ih3, ih4⟩ := ih st' (by rw [f3]; exact hnc)
          (by rw [f2]; exact hla) (by rw [f4]; rfl)
        refine ⟨ih1, ?_, ?_, ih4⟩
        · rw [ih2, f1]
        · rw [ih3, f2]
    · have hlk := processMonitored_lookup_other env st k i (fun hh => hk hh.symm)
      have hco := processMonitored_completed_other env st k i (fun hh => hk hh.symm)
      rcases hr : processMonitored env st k with ⟨st', evs, err⟩
      rw [hr] at hlk hco
      cases err with
      | some e =>
        simp only [runRefreshList]
        rw [hr]
        refine ⟨?_, hlk.1, hlk.2.1, fun hh => hnc (hco.mp hh)⟩
        rw [hlk.2.2]
        exact hmon
      | none =>
        simp only [runRefreshList]
        rw [hr]
        dsimp only
        obtain ⟨ih1, ih2, ih3, ih4⟩ := ih st' (fun hh => hnc (hco.mp hh))
          (hlk.2.1.trans hla) (by rw [hlk.2.2]; exact hmon)
        exact ⟨ih1, ih2.trans hlk.1, ih3.trans hlk.2.1, ih4⟩

/-! ### Iteration-level facts about the discovery loop -/

theorem runDiscoveryList_processed_invariant (env : DiscoveryEnv)
    (ss : List Shipment) (st : SessionState) (i : Nat)
    (h : i ∈ st.processed_shipments) :
    (∀ e ∈ (runDiscoveryList env ss st).2, e.shipmentId ≠ i) ∧
    i ∈ (runDiscoveryList env ss st).1.processed_shipments ∧
    (i ∈ (runDiscoveryList env ss st).1.completed_shipments ↔
      i ∈ st.completed_shipments) ∧
    alistLookup (runDiscoveryList env ss st).1.message_ids i
      = alistLookup st.message_ids i ∧
    alistLookup (runDiscoveryList env ss st).1.last_progress i
      = alistLookup st.last_progress i ∧
    alistLookup (runDiscoveryList env ss st).1.last_activity_time i
      = alistLookup st.last_activity_time i ∧
    alistLookup (runDiscoveryList env ss st).1.monitored_shipments i
      = alistLookup st.monitored_shipments i := by
  induction ss generalizing st with
  | nil =>
    exact ⟨fun e he => absurd he (List.not_mem_nil e), h, Iff.rfl, rfl, rfl, rfl, rfl⟩
  | cons s rest ih =>
    by_cases hs : s.id = some i
    · simp only [runDiscoveryList]
      rw [processDiscovered_skip_processed env st s i hs h]
      dsimp only
      have := ih st h
      simpa using this
    · have hoth := processDiscovered_other env st s i hs
      have hpm := processDiscovered_processed_mono env st s i h
      have hev : ∀ e ∈ (processDiscovered env st s).2.1, e.shipmentId ≠ i :=
        fun e he hh =>
          hs ((processDiscovered_events_id env st s e he).symm.trans
            (congrArg some hh))
      rcases hr : processDiscovered env st s with ⟨st', evs, err⟩
      rw [hr] at hoth hpm hev
      cases err with
      | some e =>
        simp only [runDiscoveryList]
        rw [hr]
        exact ⟨hev, hpm, hoth.2.1, hoth.2.2.1, hoth.2.2.2.1, hoth.2.2.2.2.1,
          hoth.2.2.2.2.2⟩
      | none =>
        simp only [runDiscoveryList]
        rw [hr]
        dsimp only
        obtain ⟨ih1, ih2, ih3, ih4, ih5, ih6, ih7⟩ := ih st' hpm
        refine ⟨?_, ih2, ih3.trans hoth.2.1, ih4.trans hoth.2.2.1,
          ih5.trans hoth.2.2.2.1, ih6.trans hoth.2.2.2.2.1,
          ih7.trans hoth.2.2.2.2.2⟩
        intro e he
        rcases List.mem_append.mp he with he | he
        · exact hev e he
        · exact ih1 e he

theorem runDiscoveryList_send_live_fail (env : DiscoveryEnv)
    (ss : List Shipment) (st : SessionState) (i : Nat)
    (hf : env.send i "live" = none) :
    alistLookup (runDiscoveryList env ss st).1.message_ids i
      = alistLookup st.message_ids i ∧
    alistLookup (runDiscoveryList env ss st).1.last_progress i
      = alistLookup st.last_progress i ∧
    alistLookup (runDiscoveryList env ss st).1.last_activity_time i
      = alistLookup st.last_activity_time i ∧
    alistLookup (runDiscoveryList env ss st).1.monitored_shipments i
      = alistLookup st.monitored_shipments i := by
  induction ss generalizing st with
  | nil => exact ⟨rfl, rfl, rfl, rfl⟩
  | cons s rest ih =>
    have hlk := processDiscovered_send_live_fail env st s i hf
    rcases hr : processDiscovered env st s with ⟨st', evs, err⟩
    rw [hr] at hlk
    cases err with
    | some e =>
      simp only [runDiscoveryList]
      rw [hr]
      exact hlk
    | none =>
      simp only [runDiscoveryList]
      rw [hr]
      dsimp only
      obtain ⟨ih1, ih2, ih3, ih4⟩ := ih st'
      exact ⟨ih1.trans hlk.1, ih2.trans hlk.2.1, ih3.trans hlk.2.2.1,
        ih4.trans hlk.2.2.2⟩

theorem runDiscoveryList_state_send_agnostic
    (shipments : Option (List Shipment)) (details : Nat → Option Shipment)
    (send1 send2 : Nat → String → Option Nat) (now : Int) (mst : Option Int)
    (hagree : ∀ jj, send1 jj "live" = send2 jj "live")
    (ss : List Shipment) (st : SessionState) :
    (runDiscoveryList ⟨shipments, details, send1, now, mst⟩ ss st).1
      = (runDiscoveryList ⟨shipments, details, send2, now, mst⟩ ss st).1 := by
  induction ss generalizing st with
  | nil => rfl
  | cons s rest ih =>
    obtain ⟨hst, herr⟩ := processDiscovered_state_send_agnostic shipments details
      send1 send2 now mst hagree st s
    rcases hr1 : processDiscovered ⟨shipments, details, send1, now, mst⟩ st s
      with ⟨st1, evs1, err1⟩
    rcases hr2 : processDiscovered ⟨shipments, details, send2, now, mst⟩ st s
      with ⟨st2, evs2, err2⟩
    rw [hr1, hr2] at hst herr
    dsimp only at hst herr
    subst hst
    subst herr
    cases err1 with
    | some e =>
      simp only [runDiscoveryList]
      rw [hr1, hr2]
    | none =>
      simp only [runDiscoveryList]
      rw [hr1, hr2]
      dsimp only
      exact ih st1

/-! ### Lifecycle and idempotence claims (C1, C2, C9) -/

/-- A minimal active shipment the counterexample traces use. -/
def cShipActive : Shipment :=
  { id := some 1
    state := some "active"
    created_at := none
    closed_at := none
    car_number := none
    responsible := none
    transfers := []
    tares := [] }

/-- The same shipment after the vendor closes it. -/
def cShipClosed : Shipment := { cShipActive with state := some "closed" }

/-- A discovery environment listing the active shipment, with every
delivery succeeding and no monitoring start time recorded. -/
def cDiscEnv : DiscoveryEnv :=
  { shipments := some [cShipActive]
    details := fun _ => some cShipActive
    send := fun _ _ => some 10
    now := 0
    monitoring_start_time := none }

/-- The session after one discovery iteration from the initial state: the
shipment was notified as live and is monitored, but NOT in `processed`. -/
def cSt1 : SessionState := (checkNewShipmentsIter cDiscEnv SessionState.initial).1

/-- A refresh environment in which the detail fetch now reports the
shipment closed. -/
def cRefEnv : RefreshEnv :=
  { details := fun _ => some cShipClosed
    send := fun _ _ => some 11
    editOk := fun _ => true
    deleteOk := fun _ => true
    now := 0
    inactivity_timeout := 300 }

/-- The session after the refresh iteration completed the shipment: it is
in `completed` but still not in `processed`. -/
def cSt2 : SessionState := (updateActiveShipmentsIter cRefEnv cSt1).1

/-- Counterexample to C1 as stated: after discovery surfaced shipment 1
as active and the refresh loop observed it terminal (so 1 is in the
session's completed set), a further discovery iteration — the vendor
lists the shipment again and the detail fetch reports it active — sends a
fresh "live" notification for it: the shipment is re-evaluated,
re-notified, and reported active after having been observed terminal,
because the refresh loop's terminal branch never adds the id to
`processed_shipments` and the discovery loop checks only that set. -/
theorem completed_shipment_reported_active_again :
    1 ∈ cSt2.completed_shipments ∧
    1 ∉ cSt2.processed_shipments ∧
    Event.sent 1 "live" true ∈ (checkNewShipmentsIter cDiscEnv cSt2).2 := by
  refine ⟨by decide, by decide, by decide⟩

/-- Claim C1 (amended): once a shipment id is in the session's completed
set, no later refresh iteration re-evaluates or re-notifies it (no event
concerns it, it stays completed, and its snapshot, activity and
monitored entries are untouched); and the discovery loop never
re-evaluates or re-notifies a shipment id in the processed set (so a
shipment marked completed by the discovery loop itself, which also marks
it processed, is final for both loops).  A shipment completed by the
refresh loop alone is not in `processed` and remains exposed to
re-discovery. -/
theorem completed_never_reprocessed (renv : RefreshEnv) (denv : DiscoveryEnv)
    (st : SessionState) (i : Nat) :
    (i ∈ st.completed_shipments →
      (∀ e ∈ (updateActiveShipmentsIter renv st).2, e.shipmentId ≠ i) ∧
      i ∈ (updateActiveShipmentsIter renv st).1.completed_shipments ∧
      alistLookup (updateActiveShipmentsIter renv st).1.last_progress i
        = alistLookup st.last_progress i ∧
      alistLookup (updateActiveShipmentsIter renv st).1.last_activity_time i
        = alistLookup st.last_activity_time i ∧
      alistLookup (updateActiveShipmentsIter renv st).1.monitored_shipments i
        = alistLookup st.monitored_shipments i) ∧
    (i ∈ st.processed_shipments →
      (∀ e ∈ (checkNewShipmentsIter denv st).2, e.shipmentId ≠ i) ∧
      i ∈ (checkNewShipmentsIter denv st).1.processed_shipments ∧
      (i ∈ (checkNewShipmentsIter denv st).1.completed_shipments ↔
        i ∈ st.completed_shipments) ∧
      alistLookup (checkNewShipmentsIter denv st).1.last_progress i
        = alistLookup st.last_progress i ∧
      alistLookup (checkNewShipmentsIter denv st).1.monitored_shipments i
        = alistLookup st.monitored_shipments i) := by
  constructor
  · intro h
    exact runRefreshList_completed_invariant renv _ st i h
  · intro h
    unfold checkNewShipmentsIter
    cases hs : denv.shipments with
    | none =>
      exact ⟨fun e he => absurd he (List.not_mem_nil e), h, Iff.rfl, rfl, rfl⟩
    | some l =>
      cases l with
      | nil =>
        exact ⟨fun e he => absurd he (List.not_mem_nil e), h, Iff.rfl, rfl, rfl⟩
      | cons a as =>
        have hrun := runDiscoveryList_processed_invariant denv (a :: as) st i h
        exact ⟨hrun.1, hrun.2.1, hrun.2.2.1, hrun.2.2.2.2.1,
          hrun.2.2.2.2.2.2⟩

/-- A session in which shipment 1 is both processed and completed, with
entries in every per-shipment map, used to witness C1. -/
def wSt : SessionState :=
  { processed_shipments := [1]
    completed_shipments := [1]
    message_ids := [(1, 10)]
    last_progress := []
    last_activity_time := [(1, 0)]
    monitored_shipments := [(1, cShipActive)] }

/-- Witness for C1 (amended) at a concrete processed-and-completed
shipment. -/
theorem completed_never_reprocessed_witness :
    ((∀ e ∈ (updateActiveShipmentsIter cRefEnv wSt).2, e.shipmentId ≠ 1) ∧
      1 ∈ (updateActiveShipmentsIter cRefEnv wSt).1.completed_shipments ∧
      alistLookup (updateActiveShipmentsIter cRefEnv wSt).1.last_progress 1
        = alistLookup wSt.last_progress 1 ∧
      alistLookup (updateActiveShipmentsIter cRefEnv wSt).1.last_activity_time 1
        = alistLookup wSt.last_activity_time 1 ∧
      alistLookup (updateActiveShipmentsIter cRefEnv wSt).1.monitored_shipments 1
        = alistLookup wSt.monitored_shipments 1) ∧
    ((∀ e ∈ (checkNewShipmentsIter cDiscEnv wSt).2, e.shipmentId ≠ 1) ∧
      1 ∈ (checkNewShipmentsIter cDiscEnv wSt).1.processed_shipments ∧
      (1 ∈ (checkNewShipmentsIter cDiscEnv wSt).1.completed_shipments ↔
        1 ∈ wSt.completed_shipments) ∧
      alistLookup (checkNewShipmentsIter cDiscEnv wSt).1.last_progress 1
        = alistLookup wSt.last_progress 1 ∧
      alistLookup (checkNewShipmentsIter cDiscEnv wSt).1.monitored_shipments 1
        = alistLookup wSt.monitored_shipments 1) :=
  ⟨(completed_never_reprocessed cRefEnv cDiscEnv wSt 1).1 (by decide),
   (completed_never_reprocessed cRefEnv cDiscEnv wSt 1).2 (by decide)⟩

/-- Counterexample to C2 as stated: after one discovery iteration from
the initial state, shipment 1 has been surfaced (a live notification was
sent and it sits in `monitored_shipments`), yet it is not in
`processed_shipments`, and the very next discovery iteration sends a
second live notification for it — the monitored-membership check the
claim describes does not exist in `check_new_shipments_loop`. -/
theorem surfaced_shipment_renotified :
    alistLookup cSt1.monitored_shipments 1 = some cShipActive ∧
    1 ∉ cSt1.processed_shipments ∧
    Event.sent 1 "live" true ∈ (checkNewShipmentsIter cDiscEnv cSt1).2 := by
  refine ⟨by decide, by decide, by decide⟩

/-- Claim C2 (amended): discovery is idempotent with respect to the
processed set only — for every shipment id in `processed_shipments`, a
discovery iteration emits no event (in particular no notification) for
it.  The loop performs no monitored-membership check, and its active
branch does not add the id to `processed`, so a shipment surfaced as
active is re-notified by a later discovery iteration that lists it. -/
theorem discovery_idempotent_on_processed (env : DiscoveryEnv)
    (st : SessionState) (i : Nat) (h : i ∈ st.processed_shipments) :
    ∀ e ∈ (checkNewShipmentsIter env st).2, e.shipmentId ≠ i := by
  unfold checkNewShipmentsIter
  cases hs : env.shipments with
  | none => exact fun e he => absurd he (List.not_mem_nil e)
  | some l =>
    cases l with
    | nil => exact fun e he => absurd he (List.not_mem_nil e)
    | cons a as =>
      exact (runDiscoveryList_processed_invariant env (a :: as) st i h).1

/-- Witness for C2 (amended): the processed shipment 1 triggers neither
a notification nor a detail fetch in a discovery iteration that lists
it. -/
theorem discovery_idempotent_on_processed_witness :
    Event.sent 1 "live" true ∉ (checkNewShipmentsIter cDiscEnv wSt).2 ∧
    Event.fetchedDetails 1 ∉ (checkNewShipmentsIter cDiscEnv wSt).2 :=
  ⟨fun hmem => discovery_idempotent_on_processed cDiscEnv wSt 1 (by decide)
      (Event.sent 1 "live" true) hmem rfl,
   fun hmem => discovery_idempotent_on_processed cDiscEnv wSt 1 (by decide)
      (Event.fetchedDetails 1) hmem rfl⟩

/-- The session after discovery re-surfaces the refresh-completed
shipment: id 1 is now simultaneously in `completed_shipments` and in
`monitored_shipments`, with its activity timestamp refreshed to 0. -/
def cSt3 : SessionState := (checkNewShipmentsIter cDiscEnv cSt2).1

/-- A refresh environment far in the future: the shipment's last
activity is 1000 seconds old against a 300-second timeout. -/
def cStaleEnv : RefreshEnv :=
  { details := fun _ => some cShipActive
    send := fun _ _ => some 12
    editOk := fun _ => true
    deleteOk := fun _ => true
    now := 1000
    inactivity_timeout := 300 }

/-- Counterexample to C9 as stated: the reachable session `cSt3` holds
shipment 1 in `monitored_shipments` with a last-activity timestamp 1000
seconds in the past (timeout 300), yet the next refresh iteration does
NOT remove it from the monitored map — the loop skips ids in
`completed_shipments` before the eviction check, and 1 is completed. -/
theorem stale_completed_shipment_not_evicted :
    1 ∈ cSt3.completed_shipments ∧
    alistLookup cSt3.monitored_shipments 1 = some cShipActive ∧
    alistLookup cSt3.last_activity_time 1 = some 0 ∧
    cStaleEnv.inactivity_timeout < cStaleEnv.now - 0 ∧
    alistLookup (updateActiveShipmentsIter cStaleEnv cSt3).1.monitored_shipments 1
      = some cShipActive ∧
    (updateActiveShipmentsIter cStaleEnv cSt3).2 = [] := by
  refine ⟨by decide, by decide, by decide, by decide, by decide, by decide⟩

/-- Claim C9 (amended): for every monitored shipment NOT in the
completed set whose last-activity timestamp is more than
`INACTIVITY_TIMEOUT` seconds in the past, the next refresh iteration —
provided the payloads fetched for the other monitored keys are
well-formed, so no exception aborts the iteration first — removes it
from the monitored map, emits no event for it at all (in particular no
detail fetch and no notification), and does not add it to the completed
set, leaving it free to be rediscovered. -/
theorem inactive_shipment_evicted (env : RefreshEnv) (st : SessionState)
    (i : Nat) (la : Int)
    (hwf : ∀ jj s, env.details jj = some s →
      s.created_at ≠ some TsValue.nonStr ∧ s.closed_at ≠ some TsValue.nonStr)
    (hin : i ∈ st.monitored_shipments.map (fun entry => entry.1))
    (hnc : i ∉ st.completed_shipments)
    (hla : alistLookup st.last_activity_time i = some la)
    (hstale : env.inactivity_timeout < env.now - la) :
    alistLookup (updateActiveShipmentsIter env st).1.monitored_shipments i
      = none ∧
    (∀ e ∈ (updateActiveShipmentsIter env st).2, e.shipmentId ≠ i) ∧
    i ∉ (updateActiveShipmentsIter env st).1.completed_shipments :=
  runRefreshList_evict env _ st i la hwf hin hnc hla hstale

/-- A session holding only the stale, not-completed shipment 1. -/
def wStaleSt : SessionState :=
  { processed_shipments := []
    completed_shipments := []
    message_ids := [(1, 10)]
    last_progress := []
    last_activity_time := [(1, 0)]
    monitored_shipments := [(1, cShipActive)] }

/-- Witness for C9 (amended): the stale shipment is evicted silently. -/
theorem inactive_shipment_evicted_witness :
    alistLookup (updateActiveShipmentsIter cStaleEnv wStaleSt).1.monitored_shipments 1
      = none ∧
    (∀ e ∈ (updateActiveShipmentsIter cStaleEnv wStaleSt).2, e.shipmentId ≠ 1) ∧
    1 ∉ (updateActiveShipmentsIter cStaleEnv wStaleSt).1.completed_shipments :=
  inactive_shipment_evicted cStaleEnv wStaleSt 1 0
    (by
      intro jj s hs
      cases hs
      exact ⟨by decide, by decide⟩)
    (by decide) (by decide) (by decide) (by decide)

/-! ### Commit-after-delivery and dispatcher-failure claims (C6, C7) -/

/-- A session with a live-message handle, a committed snapshot whose
scanned counts differ from what the payload now yields (so the change
detector fires), and a fresh activity timestamp. -/
def wSnapSt : SessionState :=
  { processed_shipments := []
    completed_shipments := []
    message_ids := [(1, 10)]
    last_progress := [(1, mkInfo (some "active") 5 5 0)]
    last_activity_time := [(1, 0)]
    monitored_shipments := [(1, cShipActive)] }

/-- A discovery environment whose every delivery fails. -/
def wSendFailEnv : DiscoveryEnv :=
  { shipments := some [cShipActive]
    details := fun _ => some cShipActive
    send := fun _ _ => none
    now := 0
    monitoring_start_time := none }

/-- A refresh environment whose every in-place edit fails. -/
def wEditFailEnv : RefreshEnv :=
  { details := fun _ => some cShipActive
    send := fun _ _ => some 9
    editOk := fun _ => false
    deleteOk := fun _ => true
    now := 0
    inactivity_timeout := 300 }

/-- Claim C6: the change detector never mutates the snapshot store (in
this embedding `has_progress_changed` is a pure Bool-valued function of
its arguments, so the store cannot be touched), and both loops commit the
new snapshot and refresh the activity timestamp only after the
notification was delivered or edited successfully: when the live send
fails in discovery, and when the in-place edit fails in refresh, the
snapshot store and the activity map are left unchanged for that
shipment, so the change is not marked as seen. -/
theorem snapshot_commit_only_after_delivery (denv : DiscoveryEnv)
    (renv : RefreshEnv) (st st2 : SessionState) (i : Nat) :
    (denv.send i "live" = none →
      alistLookup (checkNewShipmentsIter denv st).1.last_progress i
        = alistLookup st.last_progress i ∧
      alistLookup (checkNewShipmentsIter denv st).1.last_activity_time i
        = alistLookup st.last_activity_time i) ∧
    (renv.editOk i = false →
      alistLookup (updateActiveShipmentsIter renv st2).1.last_progress i
        = alistLookup st2.last_progress i ∧
      alistLookup (updateActiveShipmentsIter renv st2).1.last_activity_time i
        = alistLookup st2.last_activity_time i) := by
  constructor
  · intro hf
    unfold checkNewShipmentsIter
    cases hs : denv.shipments with
    | none => exact ⟨rfl, rfl⟩
    | some l =>
      cases l with
      | nil => exact ⟨rfl, rfl⟩
      | cons a as =>
        have h := runDiscoveryList_send_live_fail denv (a :: as) st i hf
        exact ⟨h.2.1, h.2.2.1⟩
  · intro hf
    exact runRefreshList_editfail renv _ st2 i hf

/-- Witness for C6: with a failing live send and a failing edit, the
snapshot and activity entries of shipment 1 stay untouched in both
loops. -/
theorem snapshot_commit_only_after_delivery_witness :
    (alistLookup (checkNewShipmentsIter wSendFailEnv wSnapSt).1.last_progress 1
        = alistLookup wSnapSt.last_progress 1 ∧
      alistLookup (checkNewShipmentsIter wSendFailEnv wSnapSt).1.last_activity_time 1
        = alistLookup wSnapSt.last_activity_time 1) ∧
    (alistLookup (updateActiveShipmentsIter wEditFailEnv wSnapSt).1.last_progress 1
        = alistLookup wSnapSt.last_progress 1 ∧
      alistLookup (updateActiveShipmentsIter wEditFailEnv wSnapSt).1.last_activity_time 1
        = alistLookup wSnapSt.last_activity_time 1) :=
  ⟨(snapshot_commit_only_after_delivery wSendFailEnv wEditFailEnv wSnapSt wSnapSt 1).1 rfl,
   (snapshot_commit_only_after_delivery wSendFailEnv wEditFailEnv wSnapSt wSnapSt 1).2 rfl⟩

/-- Claim C7: a dispatcher delivery failure does not affect tracking
state.  (a) The refresh iteration's resulting session is the same
whatever the send and delete outcomes are — its completed-notification
and message-deletion results are ignored — so a failed completed
dispatch leaves the very state a successful one (or none at all) would.
(b) The discovery iteration's resulting session depends only on the
live-send outcomes, not on the completed-send outcomes.  (c) A failed
live send records nothing for the shipment: handle, snapshot, activity
and monitored entries are exactly as if no dispatch had been attempted.
(d) A failed in-place edit leaves the shipment tracked in `monitored`
with its snapshot uncommitted — the pending change will fire the
detector again on the next refresh, so the update is retried on the
shipment's next natural state change — and does not complete it.
(e) `send_to_channel` turns a raised delivery error into the `None`
failure sentinel for every routing configuration, and the loops log and
continue. -/
theorem dispatch_failure_does_not_affect_tracking :
    (∀ (details : Nat → Option Shipment) (send1 send2 : Nat → String → Option Nat)
        (edits delete1 delete2 : Nat → Bool) (now timeout : Int)
        (st : SessionState),
      (updateActiveShipmentsIter ⟨details, send1, edits, delete1, now, timeout⟩ st).1
        = (updateActiveShipmentsIter ⟨details, send2, edits, delete2, now, timeout⟩ st).1) ∧
    (∀ (shipments : Option (List Shipment)) (details : Nat → Option Shipment)
        (send1 send2 : Nat → String → Option Nat) (now : Int) (mst : Option Int)
        (st : SessionState),
      (∀ jj, send1 jj "live" = send2 jj "live") →
      (checkNewShipmentsIter ⟨shipments, details, send1, now, mst⟩ st).1
        = (checkNewShipmentsIter ⟨shipments, details, send2, now, mst⟩ st).1) ∧
    (∀ (env : DiscoveryEnv) (st : SessionState) (i : Nat),
      env.send i "live" = none →
      alistLookup (checkNewShipmentsIter env st).1.message_ids i
        = alistLookup st.message_ids i ∧
      alistLookup (checkNewShipmentsIter env st).1.last_progress i
        = alistLookup st.last_progress i ∧
      alistLookup (checkNewShipmentsIter env st).1.last_activity_time i
        = alistLookup st.last_activity_time i ∧
      alistLookup (checkNewShipmentsIter env st).1.monitored_shipments i
        = alistLookup st.monitored_shipments i) ∧
    (∀ (env : RefreshEnv) (st : SessionState) (i : Nat) (d : Shipment) (la : Int),
      env.editOk i = false → i ∉ st.completed_shipments →
      alistLookup st.last_activity_time i = some la →
      ¬ env.inactivity_timeout < env.now - la →
      env.details i = some d → isTerminalState d.state = false →
      (alistLookup st.monitored_shipments i).isSome = true →
      (alistLookup (updateActiveShipmentsIter env st).1.monitored_shipments i).isSome
        = true ∧
      alistLookup (updateActiveShipmentsIter env st).1.last_progress i
        = alistLookup st.last_progress i ∧
      alistLookup (updateActiveShipmentsIter env st).1.last_activity_time i
        = alistLookup st.last_activity_time i ∧
      i ∉ (updateActiveShipmentsIter env st).1.completed_shipments) ∧
    (∀ (cfg : ChannelConfig) (deliver : Int → Option Int → Option Nat)
        (mt : String),
      (∀ c t, deliver c t = none) → send_to_channel cfg deliver mt = none) := by
  refine ⟨?_, ?_, ?_, ?_, ?_⟩
  · intro details send1 send2 edits delete1 delete2 now timeout st
    exact (runRefreshList_state_send_agnostic details send1 send2 edits delete1
      delete2 now timeout _ st).symm.symm
  · intro shipments details send1 send2 now mst st hagree
    unfold checkNewShipmentsIter
    dsimp only
    cases shipments with
    | none => rfl
    | some l =>
      cases l with
      | nil => rfl
      | cons a as =>
        exact runDiscoveryList_state_send_agnostic (some (a :: as)) details
          send1 send2 now mst hagree (a :: as) st
  · intro env st i hf
    unfold checkNewShipmentsIter
    cases hs : env.shipments with
    | none => exact ⟨rfl, rfl, rfl, rfl⟩
    | some l =>
      cases l with
      | nil => exact ⟨rfl, rfl, rfl, rfl⟩
      | cons a as => exact runDiscoveryList_send_live_fail env (a :: as) st i hf
  · intro env st i d la hedit hnc hla hfresh hdet hterm hmon
    exact runRefreshList_keeps_tracked env _ st i d la hedit hnc hla hfresh
      hdet hterm hmon
  · intro cfg deliver mt hdel
    unfold send_to_channel
    repeat' split
    all_goals
      first
        | exact hdel _ _
        | (dsimp only
           split
           · exact hdel _ _
           · exact hdel _ _)

/-- Witness for C7 at concrete environments: a refresh whose completed
send fails versus one whose send succeeds, a discovery pair agreeing on
live sends, a failing live send, a failing edit on a fresh non-terminal
monitored shipment, and an always-raising delivery. -/
theorem dispatch_failure_does_not_affect_tracking_witness :
    ((updateActiveShipmentsIter
        ⟨fun _ => some cShipClosed, fun _ _ => some 3, fun _ => true,
          fun _ => true, 0, 300⟩ cSt1).1
      = (updateActiveShipmentsIter
        ⟨fun _ => some cShipClosed, fun _ _ => none, fun _ => true,
          fun _ => false, 0, 300⟩ cSt1).1) ∧
    ((checkNewShipmentsIter
        ⟨some [cShipActive], fun _ => some cShipActive, fun _ _ => some 10, 0,
          none⟩ SessionState.initial).1
      = (checkNewShipmentsIter
        ⟨some [cShipActive], fun _ => some cShipActive,
          fun _ t => if t == "live" then some 10 else none, 0,
          none⟩ SessionState.initial).1) ∧
    (alistLookup (checkNewShipmentsIter wSendFailEnv wSnapSt).1.message_ids 1
        = alistLookup wSnapSt.message_ids 1 ∧
      alistLookup (checkNewShipmentsIter wSendFailEnv wSnapSt).1.last_progress 1
        = alistLookup wSnapSt.last_progress 1 ∧
      alistLookup (checkNewShipmentsIter wSendFailEnv wSnapSt).1.last_activity_time 1
        = alistLookup wSnapSt.last_activity_time 1 ∧
      alistLookup (checkNewShipmentsIter wSendFailEnv wSnapSt).1.monitored_shipments 1
        = alistLookup wSnapSt.monitored_shipments 1) ∧
    ((alistLookup (updateActiveShipmentsIter wEditFailEnv wSnapSt).1.monitored_shipments 1).isSome
        = true ∧
      alistLookup (updateActiveShipmentsIter wEditFailEnv wSnapSt).1.last_progress 1
        = alistLookup wSnapSt.last_progress 1 ∧
      alistLookup (updateActiveShipmentsIter wEditFailEnv wSnapSt).1.last_activity_time 1
        = alistLookup wSnapSt.last_activity_time 1 ∧
      1 ∉ (updateActiveShipmentsIter wEditFailEnv wSnapSt).1.completed_shipments) ∧
    send_to_channel ⟨100, none, 1, 2⟩ (fun _ _ => none) "live" = none :=
  ⟨dispatch_failure_does_not_affect_tracking.1 (fun _ => some cShipClosed)
      (fun _ _ => some 3) (fun _ _ => none) (fun _ => true) (fun _ => true)
      (fun _ => false) 0 300 cSt1,
   dispatch_failure_does_not_affect_tracking.2.1 (some [cShipActive])
      (fun _ => some cShipActive) (fun _ _ => some 10)
      (fun _ t => if t == "live" then some 10 else none) 0 none
      SessionState.initial (fun _ => rfl),
   dispatch_failure_does_not_affect_tracking.2.2.1 wSendFailEnv wSnapSt 1 rfl,
   dispatch_failure_does_not_affect_tracking.2.2.2.1 wEditFailEnv wSnapSt 1
      cShipActive 0 rfl (by decide) (by decide) (by decide) rfl (by decide)
      (by decide),
   dispatch_failure_does_not_affect_tracking.2.2.2.2 ⟨100, none, 1, 2⟩
      (fun _ _ => none) "live" (fun c t => rfl)⟩

end FourBots
